

import Mathlib

/-!
Verification development for the qc-baselib result/configuration store.

Python strings are modelled as `List Char` (`PyStr`).  The regular-expression
patterns of the rule-UID codec (`src/qc_baselib/models/result.py`, `RuleType`)
are modelled as decidable predicates over `PyStr`; Python's `str.split(":")`
is modelled by `splitOnChar`.
-/
abbrev PyStr := List Char

/-- Python `str.split(sep)` for a one-character separator: `splitOnChar sep s`
returns the (nonempty) list of chunks of `s` between occurrences of `sep`.
`splitOnChar ':' "" = [""]`, `splitOnChar ':' ":" = ["", ""]`. -/
def splitOnChar (sep : Char) : List Char → List (List Char)
  | [] => [[]]
  | c :: cs =>
    let rest := splitOnChar sep cs
    if c = sep then [] :: rest
    else
      match rest with
      | [] => [[c]]
      | p :: ps => (c :: p) :: ps

/-! ### Rule-UID field patterns

Transcriptions of the regex patterns on `RuleType`'s fields
(`src/qc_baselib/models/result.py:70-93`).  Each pattern is anchored
(`^...$`) in the source, so it is a whole-string match.  The dotted patterns
are stated through `splitOnChar '.'`: a string matches `\w+(\.\w+)+` exactly
when splitting it on `'.'` gives at least two chunks, each a nonempty string
of word characters (word characters never include `'.'`, so the chunks of a
matching string are exactly the `\w+` groups). -/
/-- Regex `\w` (ASCII reading): letters, digits and underscore. -/
def isWordChar (c : Char) : Bool := c.isAlphanum || c = '_'

/-- Regex `[a-z]`. -/
def isLowerAlpha (c : Char) : Bool := 'a' ≤ c && c ≤ 'z'

/-- `emanating_entity` pattern `^((\w+(\.\w+)+))$`. -/
def dottedWordPat (s : PyStr) : Bool :=
  let parts := splitOnChar '.' s
  decide (2 ≤ parts.length) && parts.all (fun p => !p.isEmpty && p.all isWordChar)

/-- `standard` pattern `^(([a-z]+))$`. -/
def lowerAlphaPat (s : PyStr) : Bool :=
  !s.isEmpty && s.all isLowerAlpha

/-- `definition_setting` pattern `^(([0-9]+(\.[0-9]+)+))$`. -/
def dottedNumPat (s : PyStr) : Bool :=
  let parts := splitOnChar '.' s
  decide (2 ≤ parts.length) && parts.all (fun p => !p.isEmpty && p.all Char.isDigit)

/-- One dotted segment of `rule_full_name`: `[a-z][\w_]*`. -/
def namePartPat (p : List Char) : Bool :=
  match p with
  | [] => false
  | c :: cs => isLowerAlpha c && cs.all isWordChar

/-- `rule_full_name` pattern `^((([a-z][\w_]*)\.)*)([a-z][\w_]*)$`:
every chunk between dots is `[a-z][\w_]*`. -/
def ruleNamePat (s : PyStr) : Bool :=
  (splitOnChar '.' s).all namePartPat

/-- `rule_uid` pattern, the concatenation of the four field patterns with
`':'` separators
(`^((\w+(\.\w+)+)):(([a-z]+)):(([0-9]+(\.[0-9]+)+)):((([a-z][\w_]*)\.)*)([a-z][\w_]*)$`).
None of the component patterns admits `':'`, so a string matches exactly when
splitting on `':'` yields four chunks, each matching its field pattern. -/
def ruleUidPat (s : PyStr) : Bool :=
  match splitOnChar ':' s with
  | [e, st, d, n] => dottedWordPat e && lowerAlphaPat st && dottedNumPat d && ruleNamePat n
  | _ => false

/-! ### Error model

Python raises `RuntimeError` for state/lookup/duplicate errors and pydantic
raises `ValidationError` (from a `ValueError` in a validator or a failed
field-pattern check).  Messages are carried but abbreviated. -/
inductive Err where
  | runtimeError (msg : PyStr)
  | validationError (msg : PyStr)
deriving DecidableEq, Repr

/-! ### Common model types (`src/qc_baselib/models/common.py`) -/
/-- `IssueSeverity(enum.IntEnum)`: ERROR=1, WARNING=2, INFORMATION=3. -/
inductive IssueSeverity where
  | error
  | warning
  | information
deriving DecidableEq, Repr

/-- `ParamType`: a named parameter.  The value union `str | int | float` is
modelled with a string and an integer constructor; float values are opaque
payload to every operation modelled here (they are only stored, copied and
compared by name), so they are not given a separate constructor. -/
inductive ParamValue where
  | str (s : PyStr)
  | int (n : Int)
deriving DecidableEq, Repr

structure ParamType where
  name : PyStr
  value : ParamValue
deriving DecidableEq, Repr

/-! ### Rule-UID codec (`src/qc_baselib/models/result.py`, `RuleType`) -/
structure RuleType where
  emanating_entity : PyStr
  standard : PyStr
  definition_setting : PyStr
  rule_full_name : PyStr
  rule_uid : PyStr
deriving DecidableEq, Repr

/-- Pydantic field-pattern validation: a field that is explicitly provided is
checked against its pattern (an omitted field keeps its default `""` and is
not validated, since `validate_default` is off). -/
def validateProvided (pat : PyStr → Bool) (fieldName : PyStr) :
    Option PyStr → Except Err Unit
  | none => .ok ()
  | some v =>
    if pat v then .ok ()
    else .error (.validationError (fieldName ++ " String should match pattern".toList))

/-- `RuleType.load_fields_into_uid`: if all four fields are nonempty, derive
`rule_uid` as `entity:standard:definition_setting:rule_full_name`. -/
def loadFieldsIntoUid (r : RuleType) : RuleType :=
  if r.emanating_entity ≠ [] ∧ r.standard ≠ [] ∧ r.definition_setting ≠ [] ∧
      r.rule_full_name ≠ [] then
    { r with rule_uid :=
        r.emanating_entity ++ ':' :: r.standard ++ ':' :: r.definition_setting ++
          ':' :: r.rule_full_name }
  else r

/-- `RuleType.load_uid_into_fields`: if no field was provided, split
`rule_uid` on `':'`; fewer than 4 chunks is an error, otherwise the first
four chunks populate the fields. -/
def loadUidIntoFields (r : RuleType) : Except Err RuleType :=
  if r.emanating_entity = [] ∧ r.standard = [] ∧ r.definition_setting = [] ∧
      r.rule_full_name = [] then
    let elements := splitOnChar ':' r.rule_uid
    if elements.length < 4 then
      .error (.validationError "Not enough elements to parse Rule UID".toList)
    else
      .ok { r with
        emanating_entity := elements.getD 0 []
        standard := elements.getD 1 []
        definition_setting := elements.getD 2 []
        rule_full_name := elements.getD 3 [] }
  else .ok r

/-- `RuleType.check_any_empty`: after initialization no field may be empty. -/
def checkAnyEmpty (r : RuleType) : Except Err RuleType :=
  if r.rule_uid = [] then .error (.validationError "Empty initialization of rule_uid".toList)
  else if r.emanating_entity = [] then
    .error (.validationError "Empty initialization of emanating_entity".toList)
  else if r.standard = [] then
    .error (.validationError "Empty initialization of standard".toList)
  else if r.definition_setting = [] then
    .error (.validationError "Empty initialization of definition_setting".toList)
  else if r.rule_full_name = [] then
    .error (.validationError "Empty initialization of rule_full_name".toList)
  else .ok r

/-- Construction of a `RuleType` pydantic model: field-pattern validation of
every provided field, then the three `model_validator(mode="after")` hooks in
definition order.  `none` stands for an omitted keyword argument (the field
keeps its default `""`). -/
def ruleTypeInit (emanating_entity standard definition_setting rule_full_name
    rule_uid : Option PyStr) : Except Err RuleType := do
  _ ← validateProvided dottedWordPat "emanating_entity".toList emanating_entity
  _ ← validateProvided lowerAlphaPat "standard".toList standard
  _ ← validateProvided dottedNumPat "definition_setting".toList definition_setting
  _ ← validateProvided ruleNamePat "rule_full_name".toList rule_full_name
  _ ← validateProvided ruleUidPat "ruleUID".toList rule_uid
  let r0 : RuleType :=
    { emanating_entity := emanating_entity.getD []
      standard := standard.getD []
      definition_setting := definition_setting.getD []
      rule_full_name := rule_full_name.getD []
      rule_uid := rule_uid.getD [] }
  let r1 := loadFieldsIntoUid r0
  let r2 ← loadUidIntoFields r1
  checkAnyEmpty r2

/-- The composition direction of the codec: `RuleType` built from the four
fields (as `Result.register_rule` does), returning the derived uid string. -/
def composeRule (e s d n : PyStr) : Except Err PyStr :=
  (ruleTypeInit (some e) (some s) (some d) (some n) none).map (·.rule_uid)

/-- The decomposition direction of the codec: `RuleType` built from the uid
string alone, returning the four populated fields. -/
def decomposeRule (uid : PyStr) : Except Err (PyStr × PyStr × PyStr × PyStr) :=
  (ruleTypeInit none none none none (some uid)).map
    (fun r => (r.emanating_entity, r.standard, r.definition_setting, r.rule_full_name))

/-! ### Result schema model (`src/qc_baselib/models/result.py`) -/
structure XMLLocationType where
  xpath : PyStr
deriving DecidableEq, Repr

/-- Inertial coordinates are `float` in the source; their numeric type is
opaque payload to every operation modelled here, so they are carried as
integers to keep the model decidable. -/
structure InertialLocationType where
  x : Int
  y : Int
  z : Int
deriving DecidableEq, Repr

structure FileLocationType where
  column : Int
  row : Int
deriving DecidableEq, Repr

structure LocationType where
  file_location : List FileLocationType
  xml_location : List XMLLocationType
  inertial_location : List InertialLocationType
  description : PyStr
deriving DecidableEq, Repr

/-- `LocationType` construction: the `check_at_least_one_element` validator
rejects a location carrying no concrete location entry. -/
def mkLocationType (fl : List FileLocationType) (xl : List XMLLocationType)
    (il : List InertialLocationType) (description : PyStr) : Except Err LocationType :=
  if fl.length + xl.length + il.length < 1 then
    .error (.validationError
      "LocationType require at least one element of type XMLLocationType / FileLocationType / RoadLocationType".toList)
  else .ok ⟨fl, xl, il, description⟩

/-- A raw XML fragment (an `lxml.etree._Element`), used for the opaque
`DomainSpecificInfo` payload of an issue: tag, attributes, children. -/
inductive XmlRaw where
  | node (tag : PyStr) (attrs : List (PyStr × PyStr)) (children : List XmlRaw)
deriving Repr

structure IssueType where
  locations : List LocationType
  issue_id : Int
  description : PyStr
  level : IssueSeverity
  rule_uid : PyStr
  domain_specific_info : List XmlRaw
deriving Repr

structure MetadataType where
  key : PyStr
  value : PyStr
  description : PyStr
deriving DecidableEq, Repr

inductive StatusType where
  | completed
  | error
  | skipped
deriving DecidableEq, Repr

structure CheckerType where
  params : List ParamType
  addressed_rule : List RuleType
  issues : List IssueType
  metadata : List MetadataType
  status : Option StatusType
  checker_id : PyStr
  description : PyStr
  summary : PyStr
deriving Repr

/-- `CheckerType.check_issue_ruleUID_matches_addressed_rules`: every issue's
`rule_uid` must be one of the addressed rules' uids (set membership in the
source; list membership over the same elements here). -/
def checkIssueRuleUIDMatchesAddressedRules (c : CheckerType) : Except Err Unit :=
  if c.issues.length ≠ 0 then
    let addressed_rule_uids := c.addressed_rule.map (·.rule_uid)
    match c.issues.find? (fun i => decide (i.rule_uid ∉ addressed_rule_uids)) with
    | some i =>
      .error (.validationError
        ("Issue Rule UID ".toList ++ i.rule_uid ++
          " does not match addressed rules UIDs".toList))
    | none => .ok ()
  else .ok ()

/-- `CheckerType.check_skipped_status_containing_issues`: a checker with
skipped status must not contain issues. -/
def checkSkippedStatusContainingIssues (c : CheckerType) : Except Err Unit :=
  if c.status = some StatusType.skipped ∧ 0 < c.issues.length then
    .error (.validationError
      (c.checker_id ++ " Checkers with skipped status cannot contain issues".toList))
  else .ok ()

/-- `CheckerType.model_validate` re-runs the two `model_validator` hooks in
definition order. -/
def checkerValidate (c : CheckerType) : Except Err Unit := do
  _ ← checkIssueRuleUIDMatchesAddressedRules c
  checkSkippedStatusContainingIssues c

structure CheckerBundleType where
  params : List ParamType
  checkers : List CheckerType
  build_date : PyStr
  description : PyStr
  name : PyStr
  version : PyStr
  summary : PyStr
deriving Repr

structure CheckerResults where
  checker_bundles : List CheckerBundleType
  version : PyStr
deriving Repr

/-! ### Configuration schema model (`src/qc_baselib/models/config.py`) and
store (`src/qc_baselib/configuration.py`) -/
structure ConfigCheckerType where
  params : List ParamType
  checker_id : PyStr
  max_level : Int
  min_level : Int
deriving DecidableEq, Repr

structure ReportModuleType where
  params : List ParamType
  application : PyStr
deriving DecidableEq, Repr

structure ConfigCheckerBundleType where
  params : List ParamType
  checkers : List ConfigCheckerType
  application : PyStr
deriving DecidableEq, Repr

structure Config where
  params : List ParamType
  reports : List ReportModuleType
  checker_bundles : List ConfigCheckerBundleType
deriving DecidableEq, Repr

/-- The `Configuration` store: owns at most one `Config` document. -/
structure Configuration where
  configuration : Option Config
deriving DecidableEq, Repr

/-- `Configuration.register_checker_bundle`: builds the bundle with
`model_construct` (no validation) and appends it — the source performs no
duplicate-name check. -/
def Configuration.registerCheckerBundle (cfg : Configuration)
    (checker_bundle_name : PyStr) : Configuration :=
  let checker_bundle : ConfigCheckerBundleType :=
    { params := [], checkers := [], application := checker_bundle_name }
  match cfg.configuration with
  | none => ⟨some { params := [], reports := [], checker_bundles := [checker_bundle] }⟩
  | some c => ⟨some { c with checker_bundles := c.checker_bundles ++ [checker_bundle] }⟩

/-- Python dict insertion (`d[k] = v`): an existing key keeps its position and
gets the new value, a new key is appended. -/
def dictInsert (k : PyStr) (v : ParamValue) :
    List (PyStr × ParamValue) → List (PyStr × ParamValue)
  | [] => [(k, v)]
  | (k', v') :: rest => if k' = k then (k', v) :: rest else (k', v') :: dictInsert k v rest

/-- `Configuration.get_all_global_config_param`: builds a name-keyed dict from
the global params (duplicate names collapse to the last value). -/
def getAllGlobalConfigParam (c : Config) : List (PyStr × ParamValue) :=
  c.params.foldl (fun d p => dictInsert p.name p.value d) []

/-! ### Result store (`src/qc_baselib/result.py`)

Python mutates the in-memory document in place and lets exceptions propagate;
partially performed mutations survive a raised exception.  Every operation is
therefore modelled as `Result → ... → Except Err α × Result`, returning the
outcome *and* the state as it is left behind (unchanged when the source
raises before mutating, mutated when it raises afterwards). -/
/-- Replace the first element satisfying `p` (the element Python's linear
scan finds and then mutates in place). -/
def updateFirst (p : α → Bool) (f : α → α) : List α → List α
  | [] => []
  | x :: xs => if p x then f x :: xs else x :: updateFirst p f xs

def defaultReportVersion : PyStr := "0.0.1".toList

/-- The `Result` store: at most one `CheckerResults` document plus the
`IDManager` counter (`IDManager._id`, starting at `-1`; `get_next_free_id`
increments it and returns it).  Python's `self._id += 1` creates a
per-instance attribute, so the counter is private to each instance; the
model gives each `Result` value its own `id_manager` field accordingly. -/
structure Result where
  report_results : Option CheckerResults
  id_manager : Int
deriving Repr

/-- `Result.__init__`: no document, fresh ID manager. -/
def Result.new : Result := ⟨none, -1⟩

/-- `Result._get_checker_bundle_without_error` body: linear scan by name
(the initialized-report check is made at each call site that needs it). -/
def findBundle (res : CheckerResults) (name : PyStr) : Option CheckerBundleType :=
  res.checker_bundles.find? (fun b => decide (b.name = name))

/-- `Result._get_checker_without_error`: linear scan by checker id. -/
def findChecker (b : CheckerBundleType) (checker_id : PyStr) : Option CheckerType :=
  b.checkers.find? (fun c => decide (c.checker_id = checker_id))

/-- `Result._get_issue` scan by issue id. -/
def findIssue (c : CheckerType) (issue_id : Int) : Option IssueType :=
  c.issues.find? (fun i => decide (i.issue_id = issue_id))

def updateBundle (res : CheckerResults) (name : PyStr)
    (f : CheckerBundleType → CheckerBundleType) : CheckerResults :=
  { res with checker_bundles := updateFirst (fun b => decide (b.name = name)) f res.checker_bundles }

def updateChecker (b : CheckerBundleType) (checker_id : PyStr)
    (f : CheckerType → CheckerType) : CheckerBundleType :=
  { b with checkers := updateFirst (fun c => decide (c.checker_id = checker_id)) f b.checkers }

def updateIssue (c : CheckerType) (issue_id : Int)
    (f : IssueType → IssueType) : CheckerType :=
  { c with issues := updateFirst (fun i => decide (i.issue_id = issue_id)) f c.issues }

def reportNotInitializedMsg : PyStr := "Report not initialized".toList

def bundleNotFoundMsg : PyStr := "Bundle not found".toList

def checkerNotFoundMsg : PyStr := "Checker not found".toList

def issueNotFoundMsg : PyStr := "Issue not found".toList

/-- `Result.register_checker_bundle`: builds the bundle, initializes the root
document if absent, rejects a duplicate name, then appends.  The
`build_date` default (today's date) is an environment input and is taken as
an explicit argument. -/
def Result.registerCheckerBundle (r : Result) (description name version build_date
    summary : PyStr) : Except Err Unit × Result :=
  let bundle : CheckerBundleType :=
    { params := [], checkers := [], build_date := build_date,
      description := description, name := name, version := version, summary := summary }
  let res := match r.report_results with
    | none => { checker_bundles := [], version := defaultReportVersion : CheckerResults }
    | some res => res
  if res.checker_bundles.any (fun b => decide (b.name = name)) then
    (.error (.runtimeError ("Checker bundle with name ".toList ++ name ++
      " is already registered to results".toList)),
     { r with report_results := some res })
  else
    let res' := { res with checker_bundles := res.checker_bundles ++ [bundle] }
    (.ok (), { r with report_results := some res' })

/-- `Result.register_checker`: builds the checker (its validators vacuously
pass: no issues, no status), resolves the bundle, rejects a duplicate
checker id, then appends. -/
def Result.registerChecker (r : Result) (checker_bundle_name checker_id description
    summary : PyStr) : Except Err Unit × Result :=
  let checker : CheckerType :=
    { params := [], addressed_rule := [], issues := [], metadata := [],
      status := none, checker_id := checker_id, description := description,
      summary := summary }
  match r.report_results with
  | none => (.error (.runtimeError reportNotInitializedMsg), r)
  | some res =>
    match findBundle res checker_bundle_name with
    | none => (.error (.runtimeError bundleNotFoundMsg), r)
    | some b =>
      if b.checkers.any (fun c => decide (c.checker_id = checker_id)) then
        (.error (.runtimeError ("Checker with id ".toList ++ checker_id ++
          " is already registered to bundle ".toList ++ b.name)), r)
      else
        (.ok (), { r with report_results := some (updateBundle res checker_bundle_name
          (fun b => { b with checkers := b.checkers ++ [checker] })) })

/-- `Result.register_rule`: builds the `RuleType` from the four fields (field
patterns validated), resolves bundle and checker, appends the rule and
returns its uid.  The more-than-one-rule warning is logging only. -/
def Result.registerRule (r : Result) (checker_bundle_name checker_id emanating_entity
    standard definition_setting rule_full_name : PyStr) : Except Err PyStr × Result :=
  match ruleTypeInit (some emanating_entity) (some standard) (some definition_setting)
      (some rule_full_name) none with
  | .error e => (.error e, r)
  | .ok rule =>
    match r.report_results with
    | none => (.error (.runtimeError reportNotInitializedMsg), r)
    | some res =>
      match findBundle res checker_bundle_name with
      | none => (.error (.runtimeError bundleNotFoundMsg), r)
      | some b =>
        match findChecker b checker_id with
        | none => (.error (.runtimeError checkerNotFoundMsg), r)
        | some _ =>
          let res' := updateBundle res checker_bundle_name (fun b =>
            updateChecker b checker_id (fun c =>
              { c with addressed_rule := c.addressed_rule ++ [rule] }))
          (.ok rule.rule_uid, { r with report_results := some res' })

/-- `Result.register_rule_by_uid`: splits the uid on `':'`; fewer than 4
chunks is an error, otherwise the **first four** chunks are handed to
`register_rule` (extra chunks are dropped). -/
def Result.registerRuleByUid (r : Result) (checker_bundle_name checker_id
    rule_uid : PyStr) : Except Err Unit × Result :=
  let splitted_uid := splitOnChar ':' rule_uid
  if splitted_uid.length < 4 then
    (.error (.runtimeError ("Invalid rule uid: ".toList ++ rule_uid ++
      " The uid should be composed by 4 entities separated by colon".toList)), r)
  else
    let (out, r') := r.registerRule checker_bundle_name checker_id
      (splitted_uid.getD 0 []) (splitted_uid.getD 1 []) (splitted_uid.getD 2 [])
      (splitted_uid.getD 3 [])
    (out.map (fun _ => ()), r')

/-- `Result.register_issue`: allocates the next id first, builds the
`IssueType` (whose provided `rule_uid` is pattern-checked), resolves bundle
and checker, appends the issue, then re-validates the checker.  A failure
after the allocation leaves the id consumed; a failure after the append
leaves the issue in place. -/
def Result.registerIssue (r : Result) (checker_bundle_name checker_id description : PyStr)
    (level : IssueSeverity) (rule_uid : PyStr) : Except Err Int × Result :=
  let issue_id := r.id_manager + 1
  let r := { r with id_manager := issue_id }
  if ruleUidPat rule_uid then
    let issue : IssueType :=
      { locations := [], issue_id := issue_id, description := description,
        level := level, rule_uid := rule_uid, domain_specific_info := [] }
    match r.report_results with
    | none => (.error (.runtimeError reportNotInitializedMsg), r)
    | some res =>
      match findBundle res checker_bundle_name with
      | none => (.error (.runtimeError bundleNotFoundMsg), r)
      | some b =>
        match findChecker b checker_id with
        | none => (.error (.runtimeError checkerNotFoundMsg), r)
        | some c =>
          let c' := { c with issues := c.issues ++ [issue] }
          let r' := { r with report_results := some (updateBundle res checker_bundle_name
            (fun b => updateChecker b checker_id (fun _ => c'))) }
          match checkerValidate c' with
          | .error e => (.error e, r')
          | .ok _ => (.ok issue_id, r')
  else
    (.error (.validationError "ruleUID String should match pattern".toList), r)

/-- `Result.set_checker_status`: assigns the status.  The checker has
`validate_assignment=True`, so the model validators re-run on assignment —
but pydantic commits the new field value to the model *before* the
after-validators run, so a failing validation propagates with the status
already set (no rollback; the checker keeps the new status).  The explicit
`model_validate` call afterwards is a no-op on success and unreached on
failure. -/
def Result.setCheckerStatus (r : Result) (checker_bundle_name checker_id : PyStr)
    (status : StatusType) : Except Err Unit × Result :=
  match r.report_results with
  | none => (.error (.runtimeError reportNotInitializedMsg), r)
  | some res =>
    match findBundle res checker_bundle_name with
    | none => (.error (.runtimeError bundleNotFoundMsg), r)
    | some b =>
      match findChecker b checker_id with
      | none => (.error (.runtimeError checkerNotFoundMsg), r)
      | some c =>
        let c' := { c with status := some status }
        let r' := { r with report_results := some (updateBundle res checker_bundle_name
          (fun b => updateChecker b checker_id (fun _ => c'))) }
        match checkerValidate c' with
        | .error e => (.error e, r')
        | .ok _ => (.ok (), r')

/-- `Result.add_param_to_checker_bundle`: duplicate-name params are
rejected. -/
def Result.addParamToCheckerBundle (r : Result) (checker_bundle_name name : PyStr)
    (value : ParamValue) : Except Err Unit × Result :=
  match r.report_results with
  | none => (.error (.runtimeError reportNotInitializedMsg), r)
  | some res =>
    match findBundle res checker_bundle_name with
    | none => (.error (.runtimeError bundleNotFoundMsg), r)
    | some b =>
      if b.params.any (fun p => decide (p.name = name)) then
        (.error (.runtimeError ("Param with name ".toList ++ name ++
          " is already registered to bundle ".toList ++ checker_bundle_name)), r)
      else
        (.ok (), { r with report_results := some (updateBundle res checker_bundle_name
          (fun b => { b with params := b.params ++ [⟨name, value⟩] })) })

/-- `Result.add_param_to_checker`: duplicate-name params are rejected. -/
def Result.addParamToChecker (r : Result) (checker_bundle_name checker_id name : PyStr)
    (value : ParamValue) : Except Err Unit × Result :=
  match r.report_results with
  | none => (.error (.runtimeError reportNotInitializedMsg), r)
  | some res =>
    match findBundle res checker_bundle_name with
    | none => (.error (.runtimeError bundleNotFoundMsg), r)
    | some b =>
      match findChecker b checker_id with
      | none => (.error (.runtimeError checkerNotFoundMsg), r)
      | some c =>
        if c.params.any (fun p => decide (p.name = name)) then
          (.error (.runtimeError ("Param with name ".toList ++ name ++
            " is already registered to checker ".toList ++ checker_id)), r)
        else
          (.ok (), { r with report_results := some (updateBundle res checker_bundle_name
            (fun b => updateChecker b checker_id (fun c =>
              { c with params := c.params ++ [⟨name, value⟩] }))) })

/-- `Result.add_xml_location` (list-of-xpaths branch of the `str | List[str]`
union): builds one `XMLLocationType` per xpath, resolves bundle, checker and
issue, then appends one `LocationType` containing them all — whose
construction fails when the list is empty. -/
def Result.addXmlLocation (r : Result) (checker_bundle_name checker_id : PyStr)
    (issue_id : Int) (xpath : List PyStr) (description : PyStr) :
    Except Err Unit × Result :=
  let xml_locations := xpath.map (fun p => ({ xpath := p } : XMLLocationType))
  match r.report_results with
  | none => (.error (.runtimeError reportNotInitializedMsg), r)
  | some res =>
    match findBundle res checker_bundle_name with
    | none => (.error (.runtimeError bundleNotFoundMsg), r)
    | some b =>
      match findChecker b checker_id with
      | none => (.error (.runtimeError checkerNotFoundMsg), r)
      | some c =>
        match findIssue c issue_id with
        | none => (.error (.runtimeError issueNotFoundMsg), r)
        | some _ =>
          match mkLocationType [] xml_locations [] description with
          | .error e => (.error e, r)
          | .ok loc =>
            (.ok (), { r with report_results := some (updateBundle res checker_bundle_name
              (fun b => updateChecker b checker_id (fun c =>
                updateIssue c issue_id (fun i =>
                  { i with locations := i.locations ++ [loc] })))) })

/-- One step of `copy_param_from_config`'s second loop: a configuration
bundle is matched against the result document by application name; when it
matches, its params are appended to the (single, in-place mutated) result
bundle and each of its checkers' params to the matching result checker. -/
def mergeCheckerList (checkers : List CheckerType) (ccs : List ConfigCheckerType) :
    List CheckerType :=
  ccs.foldl (fun cs cc =>
    match cs.find? (fun c => decide (c.checker_id = cc.checker_id)) with
    | none => cs
    | some _ => updateFirst (fun c => decide (c.checker_id = cc.checker_id))
        (fun c => { c with params := c.params ++ cc.params }) cs) checkers

/-- The in-place mutation one matching configuration bundle performs on the
matching result bundle: its params are appended and its checkers merged. -/
def mergeBundleStep (b : CheckerBundleType) (cb : ConfigCheckerBundleType) :
    CheckerBundleType :=
  { b with params := b.params ++ cb.params,
           checkers := mergeCheckerList b.checkers cb.checkers }

def applyCfgBundle (res : CheckerResults) (cb : ConfigCheckerBundleType) :
    CheckerResults :=
  match findBundle res cb.application with
  | none => res
  | some _ => updateBundle res cb.application (fun b => mergeBundleStep b cb)

/-- `Result.copy_param_from_config`: first loop appends every entry of the
global-param dict to every result bundle; second loop merges matching
bundles and checkers.  An uninitialized configuration raises
(`AttributeError` on `None`, modelled as a runtime error); an uninitialized
result raises inside the first loop body (if there is at least one global
param) or inside the bundle lookup (if there is at least one configuration
bundle), and otherwise the call completes without touching anything. -/
def Result.copyParamFromConfig (r : Result) (config : Configuration) :
    Except Err Unit × Result :=
  match config.configuration with
  | none => (.error (.runtimeError "AttributeError: NoneType has no attribute params".toList), r)
  | some cfg =>
    let globals := getAllGlobalConfigParam cfg
    match r.report_results with
    | none =>
      if globals ≠ [] then
        (.error (.runtimeError
          "AttributeError: NoneType has no attribute checker_bundles".toList), r)
      else if cfg.checker_bundles ≠ [] then
        (.error (.runtimeError reportNotInitializedMsg), r)
      else (.ok (), r)
    | some res =>
      let res1 : CheckerResults :=
        { res with checker_bundles := res.checker_bundles.map (fun b =>
            { b with params := b.params ++ globals.map (fun g => ⟨g.1, g.2⟩) }) }
      let res2 := cfg.checker_bundles.foldl applyCfgBundle res1
      (.ok (), { r with report_results := some res2 })

/-! ### Sequences of `register_issue` calls (for the ID-manager claims) -/
structure IssueReq where
  bundle : PyStr
  checker : PyStr
  description : PyStr
  level : IssueSeverity
  rule_uid : PyStr

/-- Run a sequence of `register_issue` calls, collecting each call's
outcome. -/
def runIssues (r : Result) : List IssueReq → List (Except Err Int) × Result
  | [] => ([], r)
  | q :: qs =>
    let (out, r') := r.registerIssue q.bundle q.checker q.description q.level q.rule_uid
    let (outs, r'') := runIssues r' qs
    (out :: outs, r'')

/-! ### Order-independent Config parsing

Modelled from the spec: the XML unmarshalling machinery that honours
`search_mode="unordered"` on `Config` and `CheckerBundleType`
(`src/qc_baselib/models/config.py`) lives in the pydantic-xml library, not
under `src/`; per the spec, "children of a document/bundle (Param, Checker,
ReportModule, CheckerBundle) may appear in any order in the source file and
must parse identically regardless of order".  A raw child element is
modelled as carrying its already-decoded payload (attribute decoding is
orthogonal to ordering); an unordered parse collects the children of each
declared tag in document order and then runs the model validators. -/
inductive BundleXmlChild where
  | paramE (p : ParamType)
  | checkerE (c : ConfigCheckerType)
deriving DecidableEq, Repr

inductive ConfigXmlChild where
  | paramE (p : ParamType)
  | reportE (m : ReportModuleType)
  | bundleE (application : PyStr) (children : List BundleXmlChild)
deriving DecidableEq, Repr

def bundleChildParam : BundleXmlChild → Option ParamType
  | .paramE p => some p
  | _ => none

def bundleChildChecker : BundleXmlChild → Option ConfigCheckerType
  | .checkerE c => some c
  | _ => none

/-- Unordered parse of a `CheckerBundle` element, then the
`check_at_least_one_element` validator of `CheckerBundleType`
(config dialect). -/
def parseBundleXml (application : PyStr) (children : List BundleXmlChild) :
    Except Err ConfigCheckerBundleType :=
  let params := children.filterMap bundleChildParam
  let checkers := children.filterMap bundleChildChecker
  if params.length + checkers.length < 1 then
    .error (.validationError
      "CheckerBundleType require at least one element of type Param or CheckerType".toList)
  else .ok { params := params, checkers := checkers, application := application }

def configChildParam : ConfigXmlChild → Option ParamType
  | .paramE p => some p
  | _ => none

def configChildReport : ConfigXmlChild → Option ReportModuleType
  | .reportE m => some m
  | _ => none

def configChildBundle : ConfigXmlChild → Option (PyStr × List BundleXmlChild)
  | .bundleE a cs => some (a, cs)
  | _ => none

def parseBundlesXml : List (PyStr × List BundleXmlChild) →
    Except Err (List ConfigCheckerBundleType)
  | [] => .ok []
  | (a, cs) :: rest => do
    let b ← parseBundleXml a cs
    let bs ← parseBundlesXml rest
    .ok (b :: bs)

/-- Unordered parse of a `Config` document, then the
`check_at_least_one_element` validator of `Config`. -/
def parseConfigXml (children : List ConfigXmlChild) : Except Err Config := do
  let params := children.filterMap configChildParam
  let reports := children.filterMap configChildReport
  let bundles ← parseBundlesXml (children.filterMap configChildBundle)
  if params.length + reports.length + bundles.length < 1 then
    .error (.validationError "Config require at least one element".toList)
  else .ok { params := params, reports := reports, checker_bundles := bundles }

/-! ### C1: rule-UID codec round trip -/
/-- The uid string `entity:standard:definition_setting:rule_full_name` as
built by `load_fields_into_uid`. -/
def joinUid (a b c d : PyStr) : PyStr := a ++ ':' :: (b ++ ':' :: (c ++ ':' :: d))

/-- Witness state: bundle and checker names used by the repository's tests. -/
def wBundleName : PyStr := "TestBundle".toList

def wCheckerId : PyStr := "TestChecker".toList

def wUid : PyStr := "test.com:qc:1.0.0:qwerty.qwerty".toList

/-- A result store holding one bundle, built through the registration API. -/
def wResult0 : Result :=
  (Result.new.registerCheckerBundle "Example checker bundle".toList wBundleName
    "0.0.1".toList "2024-05-31".toList "Tested example checkers".toList).2

/-- A result store holding one bundle with one checker (no addressed rules,
no issues), built through the registration API. -/
def wResult1 : Result :=
  (wResult0.registerChecker wBundleName wCheckerId "Test checker".toList
    "Executed evaluation".toList).2

def dummyBundle : CheckerBundleType := ⟨[], [], [], [], [], [], []⟩

def dummyChecker : CheckerType := ⟨[], [], [], [], none, [], [], []⟩

def dummyResults : CheckerResults := ⟨[], []⟩

def wRes1 : CheckerResults := wResult1.report_results.getD dummyResults

def wB1 : CheckerBundleType := (findBundle wRes1 wBundleName).getD dummyBundle

def wC1 : CheckerType := (findChecker wB1 wCheckerId).getD dummyChecker

/-- Counterexample input for C6: a uid with five colon-separated segments
whose first four are valid. -/
def fiveSegUid : PyStr := "test.com:qc:1.0.0:qwerty.qwerty:extra".toList

/-- Counterexample state for C5: a configuration that already holds a bundle
named "B". -/
def cfgWithB : Configuration := Configuration.registerCheckerBundle ⟨none⟩ "B".toList


/-- Spec-side description of what `copy_param_from_config` does to one result
checker inside a matched bundle: for each matching configuration bundle (in
order) the params of each of its checkers with this checker's id are
appended. -/
def specMergedChecker (matching : List ConfigCheckerBundleType) (c : CheckerType) :
    CheckerType :=
  { c with params := c.params ++ (matching.map (fun cb =>
      ((cb.checkers.filter (fun cc => decide (cc.checker_id = c.checker_id))).map
        (·.params)).flatten)).flatten }

/-- Spec-side description of what `copy_param_from_config` does to one result
bundle: every entry of the global-param dict is appended, then the params of
every configuration bundle whose application name matches, and each checker
is merged per `specMergedChecker`. -/
def specMergedBundle (cfg : Config) (b : CheckerBundleType) : CheckerBundleType :=
  let matching := cfg.checker_bundles.filter (fun cb => decide (b.name = cb.application))
  { b with
    params := b.params ++ (getAllGlobalConfigParam cfg).map (fun g => ⟨g.1, g.2⟩) ++
      (matching.map (·.params)).flatten,
    checkers := b.checkers.map (specMergedChecker matching) }

/-- Witness state: bundle, checker and rule registered through the API. -/
def wResult2 : Result :=
  (wResult1.registerRule wBundleName wCheckerId "test.com".toList "qc".toList
    "1.0.0".toList "qwerty.qwerty".toList).2

def wRes2 : CheckerResults := wResult2.report_results.getD dummyResults

def wB2 : CheckerBundleType := (findBundle wRes2 wBundleName).getD dummyBundle

def wC2c : CheckerType := (findChecker wB2 wCheckerId).getD dummyChecker

/-- Witness issue-registration request addressed to the registered rule. -/
def wReq : IssueReq :=
  ⟨wBundleName, wCheckerId, "Issue found at odr".toList, .information, wUid⟩

/-- Witness state after registering one issue (id 0). -/
def wResult3 : Result :=
  (wResult2.registerIssue wBundleName wCheckerId "Issue found at odr".toList
    .information wUid).2

def wRes3 : CheckerResults := wResult3.report_results.getD dummyResults

def wB3 : CheckerBundleType := (findBundle wRes3 wBundleName).getD dummyBundle

def wC3c : CheckerType := (findChecker wB3 wCheckerId).getD dummyChecker

def dummyIssue : IssueType := ⟨[], 0, [], .error, [], []⟩

def wIss3 : IssueType := (findIssue wC3c 0).getD dummyIssue

/-- The issue a failed registration against an empty addressed-rule list
leaves behind. -/
def wIssue0 : IssueType := ⟨[], 0, "Issue found at odr".toList, .information, wUid, []⟩

def wC9checker : CheckerType := { wC1 with issues := wC1.issues ++ [wIssue0] }

/-- The validation error produced by re-validating `wC9checker`. -/
def wC9err : Err :=
  match checkerValidate wC9checker with
  | .error e => e
  | .ok _ => .runtimeError []

/-- Witness configuration: one global param, one bundle matching the witness
result bundle with one param and one matching checker with one param. -/
def wCfgObj : Config :=
  ⟨[⟨"gp".toList, .str "gv".toList⟩], [],
   [⟨[⟨"bp".toList, .str "bv".toList⟩],
     [⟨[⟨"cp".toList, .str "cv".toList⟩], wCheckerId, 3, 1⟩], wBundleName⟩]⟩

def wCfg : Configuration := ⟨some wCfgObj⟩

/-- The same Config document children in two different orders. -/
def orderedConfigChildren : List ConfigXmlChild :=
  [.paramE ⟨"p".toList, .str "v".toList⟩, .reportE ⟨[], "mod".toList⟩,
   .bundleE "app".toList [.paramE ⟨"q".toList, .str "w".toList⟩]]

def unorderedConfigChildren : List ConfigXmlChild :=
  [.bundleE "app".toList [.paramE ⟨"q".toList, .str "w".toList⟩],
   .reportE ⟨[], "mod".toList⟩, .paramE ⟨"p".toList, .str "v".toList⟩]

def wParsedOrdered : Config :=
  (parseConfigXml orderedConfigChildren).toOption.getD ⟨[], [], []⟩

def wParsedUnordered : Config :=
  (parseConfigXml unorderedConfigChildren).toOption.getD ⟨[], [], []⟩

/-! ## Theorems -/

theorem splitOnChar_ne_nil (sep : Char) (s : List Char) : splitOnChar sep s ≠ [] := by
  induction s with
  | nil => simp [splitOnChar]
  | cons c cs ih =>
    simp only [splitOnChar]
    split
    · simp
    · cases h : splitOnChar sep cs with
      | nil => simp
      | cons p ps => simp [h]

/-- Every character of `s` is either the separator or a character of one of
the chunks produced by `splitOnChar`. -/
theorem mem_splitOnChar_of_mem (sep : Char) (s : List Char) (c : Char) (hc : c ∈ s) :
    c = sep ∨ ∃ p ∈ splitOnChar sep s, c ∈ p := by
  induction s with
  | nil => cases hc
  | cons x xs ih =>
    simp only [splitOnChar]
    rcases List.mem_cons.mp hc with hcx | hcs
    · subst hcx
      by_cases hx : c = sep
      · exact Or.inl hx
      · refine Or.inr ?_
        rw [if_neg hx]
        cases h : splitOnChar sep xs with
        | nil => exact ⟨[c], by simp, by simp⟩
        | cons p ps => exact ⟨c :: p, by simp, by simp⟩
    · rcases ih hcs with h | ⟨p, hp, hcp⟩
      · exact Or.inl h
      · refine Or.inr ?_
        split
        · exact ⟨p, List.mem_cons_of_mem _ hp, hcp⟩
        · cases h : splitOnChar sep xs with
          | nil => rw [h] at hp; cases hp
          | cons q qs =>
            rw [h] at hp
            rcases List.mem_cons.mp hp with hpq | hpqs
            · subst hpq
              exact ⟨x :: p, by simp [h], List.mem_cons_of_mem _ hcp⟩
            · exact ⟨p, by simp [h, hpqs], hcp⟩

/-- Splitting a string that does not contain the separator yields the string
itself as the single chunk. -/
theorem splitOnChar_of_not_mem (sep : Char) (s : List Char) (h : sep ∉ s) :
    splitOnChar sep s = [s] := by
  induction s with
  | nil => rfl
  | cons c cs ih =>
    have hcne : c ≠ sep := fun hc => h (hc ▸ List.mem_cons_self c cs)
    have hcs : sep ∉ cs := fun hc => h (List.mem_cons_of_mem _ hc)
    simp only [splitOnChar, if_neg hcne, ih hcs]

/-- Splitting `a ++ sep :: rest` when `a` does not contain the separator
peels off `a` as the first chunk. -/
theorem splitOnChar_append_cons (sep : Char) (a rest : List Char) (h : sep ∉ a) :
    splitOnChar sep (a ++ sep :: rest) = a :: splitOnChar sep rest := by
  induction a with
  | nil => simp [splitOnChar]
  | cons c cs ih =>
    have hcne : c ≠ sep := fun hc => h (hc ▸ List.mem_cons_self c cs)
    have hcs : sep ∉ cs := fun hc => h (List.mem_cons_of_mem _ hc)
    simp only [List.cons_append, splitOnChar, if_neg hcne]
    rw [show cs.append (sep :: rest) = cs ++ sep :: rest from rfl, ih hcs]

theorem isWordChar_ne_colon {c : Char} (h : isWordChar c = true) : c ≠ ':' := by
  intro hc; subst hc; simp [isWordChar, Char.isAlphanum, Char.isAlpha, Char.isUpper,
    Char.isLower, Char.isDigit] at h

theorem isLowerAlpha_ne_colon {c : Char} (h : isLowerAlpha c = true) : c ≠ ':' := by
  intro hc; subst hc
  simp only [isLowerAlpha, Bool.and_eq_true, decide_eq_true_eq] at h
  exact absurd h.1 (by decide)

theorem isDigit_ne_colon {c : Char} (h : c.isDigit = true) : c ≠ ':' := by
  intro hc; subst hc; simp [Char.isDigit] at h

theorem dottedWordPat_no_colon {s : PyStr} (h : dottedWordPat s = true) : ':' ∉ s := by
  intro hc
  rcases mem_splitOnChar_of_mem '.' s ':' hc with hdot | ⟨p, hp, hcp⟩
  · exact absurd hdot (by decide)
  · simp only [dottedWordPat, Bool.and_eq_true, List.all_eq_true] at h
    have := h.2 p hp
    simp only [Bool.and_eq_true, List.all_eq_true] at this
    exact isWordChar_ne_colon (this.2 ':' hcp) rfl

theorem lowerAlphaPat_no_colon {s : PyStr} (h : lowerAlphaPat s = true) : ':' ∉ s := by
  intro hc
  simp only [lowerAlphaPat, Bool.and_eq_true, List.all_eq_true] at h
  exact isLowerAlpha_ne_colon (h.2 ':' hc) rfl

theorem dottedNumPat_no_colon {s : PyStr} (h : dottedNumPat s = true) : ':' ∉ s := by
  intro hc
  rcases mem_splitOnChar_of_mem '.' s ':' hc with hdot | ⟨p, hp, hcp⟩
  · exact absurd hdot (by decide)
  · simp only [dottedNumPat, Bool.and_eq_true, List.all_eq_true] at h
    have := h.2 p hp
    simp only [Bool.and_eq_true, List.all_eq_true] at this
    exact isDigit_ne_colon (this.2 ':' hcp) rfl

theorem ruleNamePat_no_colon {s : PyStr} (h : ruleNamePat s = true) : ':' ∉ s := by
  intro hc
  rcases mem_splitOnChar_of_mem '.' s ':' hc with hdot | ⟨p, hp, hcp⟩
  · exact absurd hdot (by decide)
  · simp only [ruleNamePat, List.all_eq_true] at h
    have hpp := h p hp
    cases p with
    | nil => cases hcp
    | cons c cs =>
      simp only [namePartPat, Bool.and_eq_true, List.all_eq_true] at hpp
      rcases List.mem_cons.mp hcp with hce | hcs
      · exact isLowerAlpha_ne_colon (hce ▸ hpp.1) rfl
      · exact isWordChar_ne_colon (hpp.2 ':' hcs) rfl

theorem dottedWordPat_ne_nil {s : PyStr} (h : dottedWordPat s = true) : s ≠ [] := by
  intro hs; subst hs
  simp [dottedWordPat, splitOnChar] at h

theorem lowerAlphaPat_ne_nil {s : PyStr} (h : lowerAlphaPat s = true) : s ≠ [] := by
  intro hs; subst hs; simp [lowerAlphaPat] at h

theorem dottedNumPat_ne_nil {s : PyStr} (h : dottedNumPat s = true) : s ≠ [] := by
  intro hs; subst hs
  simp [dottedNumPat, splitOnChar] at h

theorem ruleNamePat_ne_nil {s : PyStr} (h : ruleNamePat s = true) : s ≠ [] := by
  intro hs; subst hs
  simp [ruleNamePat, splitOnChar, namePartPat] at h

theorem loadFieldsIntoUid_eq_joinUid (r : RuleType)
    (h1 : r.emanating_entity ≠ []) (h2 : r.standard ≠ [])
    (h3 : r.definition_setting ≠ []) (h4 : r.rule_full_name ≠ []) :
    loadFieldsIntoUid r = ⟨r.emanating_entity, r.standard, r.definition_setting,
      r.rule_full_name,
      joinUid r.emanating_entity r.standard r.definition_setting r.rule_full_name⟩ := by
  rw [loadFieldsIntoUid, if_pos ⟨h1, h2, h3, h4⟩]
  simp [joinUid]

theorem loadFieldsIntoUid_of_empty (r : RuleType) (h : r.emanating_entity = []) :
    loadFieldsIntoUid r = r := by
  rw [loadFieldsIntoUid, if_neg]
  simp [h]

theorem loadUidIntoFields_of_nonempty (r : RuleType) (h : r.emanating_entity ≠ []) :
    loadUidIntoFields r = .ok r := by
  rw [loadUidIntoFields, if_neg]
  simp [h]

theorem checkAnyEmpty_of_nonempty (r : RuleType) (h0 : r.rule_uid ≠ [])
    (h1 : r.emanating_entity ≠ []) (h2 : r.standard ≠ [])
    (h3 : r.definition_setting ≠ []) (h4 : r.rule_full_name ≠ []) :
    checkAnyEmpty r = .ok r := by
  rw [checkAnyEmpty, if_neg h0, if_neg h1, if_neg h2, if_neg h3, if_neg h4]

theorem joinUid_ne_nil (a b c d : PyStr) (ha : a ≠ []) : joinUid a b c d ≠ [] := by
  cases a <;> simp [joinUid] at ha ⊢

theorem splitOnChar_joinUid {a b c d : PyStr}
    (ha : ':' ∉ a) (hb : ':' ∉ b) (hc : ':' ∉ c) (hd : ':' ∉ d) :
    splitOnChar ':' (joinUid a b c d) = [a, b, c, d] := by
  rw [joinUid, splitOnChar_append_cons ':' a _ ha, splitOnChar_append_cons ':' b _ hb,
    splitOnChar_append_cons ':' c _ hc, splitOnChar_of_not_mem ':' d hd]

theorem ruleUidPat_joinUid {a b c d : PyStr}
    (ha : dottedWordPat a = true) (hb : lowerAlphaPat b = true)
    (hc : dottedNumPat c = true) (hd : ruleNamePat d = true) :
    ruleUidPat (joinUid a b c d) = true := by
  rw [ruleUidPat, splitOnChar_joinUid (dottedWordPat_no_colon ha)
    (lowerAlphaPat_no_colon hb) (dottedNumPat_no_colon hc) (ruleNamePat_no_colon hd)]
  simp [ha, hb, hc, hd]

theorem ruleTypeInit_stages (e s d n u : Option PyStr)
    (h1 : validateProvided dottedWordPat "emanating_entity".toList e = .ok ())
    (h2 : validateProvided lowerAlphaPat "standard".toList s = .ok ())
    (h3 : validateProvided dottedNumPat "definition_setting".toList d = .ok ())
    (h4 : validateProvided ruleNamePat "rule_full_name".toList n = .ok ())
    (h5 : validateProvided ruleUidPat "ruleUID".toList u = .ok ()) :
    ruleTypeInit e s d n u =
      (loadUidIntoFields (loadFieldsIntoUid
        ⟨e.getD [], s.getD [], d.getD [], n.getD [], u.getD []⟩)).bind checkAnyEmpty := by
  unfold ruleTypeInit
  rw [h1, h2, h3, h4, h5]
  rfl

/-- C1.  For every quadruple of field values each matching its required
pattern, composing them into a rule UID string and then decomposing that
string yields exactly the original four fields:
`decompose(compose(a,b,c,d)) == (a,b,c,d)`. -/
theorem rule_uid_compose_decompose_roundtrip (a b c d : PyStr)
    (ha : dottedWordPat a = true) (hb : lowerAlphaPat b = true)
    (hc : dottedNumPat c = true) (hd : ruleNamePat d = true) :
    composeRule a b c d = .ok (joinUid a b c d) ∧
    decomposeRule (joinUid a b c d) = .ok (a, b, c, d) := by
  have hane : a ≠ [] := dottedWordPat_ne_nil ha
  have hbne : b ≠ [] := lowerAlphaPat_ne_nil hb
  have hcne : c ≠ [] := dottedNumPat_ne_nil hc
  have hdne : d ≠ [] := ruleNamePat_ne_nil hd
  have huidne : joinUid a b c d ≠ [] := joinUid_ne_nil a b c d hane
  constructor
  · rw [composeRule, ruleTypeInit_stages (some a) (some b) (some c) (some d) none
      (by simp [validateProvided, ha]) (by simp [validateProvided, hb])
      (by simp [validateProvided, hc]) (by simp [validateProvided, hd])
      (by simp [validateProvided])]
    rw [loadFieldsIntoUid_eq_joinUid _ hane hbne hcne hdne]
    rw [loadUidIntoFields_of_nonempty _ hane]
    show Except.map _ (checkAnyEmpty _) = _
    rw [checkAnyEmpty_of_nonempty _ huidne hane hbne hcne hdne]
    rfl
  · rw [decomposeRule, ruleTypeInit_stages none none none none (some (joinUid a b c d))
      (by simp [validateProvided]) (by simp [validateProvided])
      (by simp [validateProvided]) (by simp [validateProvided])
      (by simp [validateProvided, ruleUidPat_joinUid ha hb hc hd])]
    rw [loadFieldsIntoUid_of_empty _ rfl]
    rw [loadUidIntoFields, if_pos ⟨rfl, rfl, rfl, rfl⟩]
    simp only [Option.getD_some]
    rw [splitOnChar_joinUid (dottedWordPat_no_colon ha) (lowerAlphaPat_no_colon hb)
      (dottedNumPat_no_colon hc) (ruleNamePat_no_colon hd)]
    show Except.map _ (checkAnyEmpty _) = _
    rw [checkAnyEmpty_of_nonempty _ huidne hane hbne hcne hdne]
    rfl

theorem updateFirst_of_find?_eq_none {p : α → Bool} {f : α → α} {l : List α}
    (h : l.find? p = none) : updateFirst p f l = l := by
  induction l with
  | nil => rfl
  | cons x xs ih =>
    rw [List.find?_cons] at h
    split at h
    · cases h
    · rw [updateFirst, if_neg (by simp_all), ih h]

theorem find?_updateFirst {p : α → Bool} {f : α → α} {l : List α} {x : α}
    (h : l.find? p = some x) (hf : p (f x) = true) :
    (updateFirst p f l).find? p = some (f x) := by
  induction l with
  | nil => cases h
  | cons y ys ih =>
    by_cases hy : p y = true
    · rw [List.find?_cons_of_pos _ hy] at h
      cases h
      rw [updateFirst, if_pos hy, List.find?_cons_of_pos _ hf]
    · rw [List.find?_cons_of_neg _ (by simp_all)] at h
      rw [updateFirst, if_neg (by simp_all), List.find?_cons_of_neg _ (by simp_all)]
      exact ih h

/-- C6 counterexample: `register_rule_by_uid` with a five-segment uid (not
exactly four segments) does **not** raise — it registers the rule built from
the first four segments, dropping the fifth. -/
theorem register_rule_by_uid_five_segments_succeeds :
    (splitOnChar ':' fiveSegUid).length = 5 ∧
    (wResult1.registerRuleByUid wBundleName wCheckerId fiveSegUid).1 = .ok () ∧
    ∃ res b c, (wResult1.registerRuleByUid wBundleName wCheckerId fiveSegUid).2.report_results
        = some res ∧
      findBundle res wBundleName = some b ∧ findChecker b wCheckerId = some c ∧
      c.addressed_rule.map (·.rule_uid) = [wUid] := by
  refine ⟨by decide, rfl, ?_⟩
  exact ⟨_, _, _, rfl, rfl, rfl, rfl⟩

theorem findBundle_updateBundle {res : CheckerResults} {bn : PyStr}
    {b : CheckerBundleType} {f : CheckerBundleType → CheckerBundleType}
    (hb : findBundle res bn = some b) (hf : (f b).name = b.name) :
    findBundle (updateBundle res bn f) bn = some (f b) := by
  have hb' : res.checker_bundles.find? (fun b => decide (b.name = bn)) = some b := hb
  have hpb : decide (b.name = bn) = true := by
    have := List.find?_some hb'
    exact this
  have hgoal : (updateFirst (fun b => decide (b.name = bn)) f
      res.checker_bundles).find? (fun b => decide (b.name = bn)) = some (f b) :=
    find?_updateFirst hb' (by simp only [decide_eq_true_eq] at hpb ⊢; rw [hf, hpb])
  exact hgoal

theorem findChecker_updateChecker {b : CheckerBundleType} {cid : PyStr}
    {c : CheckerType} {f : CheckerType → CheckerType}
    (hc : findChecker b cid = some c) (hf : (f c).checker_id = c.checker_id) :
    findChecker (updateChecker b cid f) cid = some (f c) := by
  have hc' : b.checkers.find? (fun c => decide (c.checker_id = cid)) = some c := hc
  have hpc : decide (c.checker_id = cid) = true := by
    have := List.find?_some hc'
    exact this
  have hgoal : (updateFirst (fun c => decide (c.checker_id = cid)) f
      b.checkers).find? (fun c => decide (c.checker_id = cid)) = some (f c) :=
    find?_updateFirst hc' (by simp only [decide_eq_true_eq] at hpc ⊢; rw [hf, hpc])
  exact hgoal

theorem ruleTypeInit_fields_ok {e s d n : PyStr}
    (he : dottedWordPat e = true) (hs : lowerAlphaPat s = true)
    (hd : dottedNumPat d = true) (hn : ruleNamePat n = true) :
    ruleTypeInit (some e) (some s) (some d) (some n) none =
      .ok ⟨e, s, d, n, joinUid e s d n⟩ := by
  have hene : e ≠ [] := dottedWordPat_ne_nil he
  rw [ruleTypeInit_stages (some e) (some s) (some d) (some n) none
    (by simp [validateProvided, he]) (by simp [validateProvided, hs])
    (by simp [validateProvided, hd]) (by simp [validateProvided, hn])
    (by simp [validateProvided])]
  rw [loadFieldsIntoUid_eq_joinUid _ hene (lowerAlphaPat_ne_nil hs)
    (dottedNumPat_ne_nil hd) (ruleNamePat_ne_nil hn)]
  rw [loadUidIntoFields_of_nonempty _ hene]
  show checkAnyEmpty _ = _
  rw [checkAnyEmpty_of_nonempty _ (joinUid_ne_nil _ _ _ _ hene) hene
    (lowerAlphaPat_ne_nil hs) (dottedNumPat_ne_nil hd) (ruleNamePat_ne_nil hn)]
  rfl

theorem registerRule_ok {r : Result} {res : CheckerResults} {b : CheckerBundleType}
    {c : CheckerType} {bn cid e s d n : PyStr}
    (he : dottedWordPat e = true) (hs : lowerAlphaPat s = true)
    (hd : dottedNumPat d = true) (hn : ruleNamePat n = true)
    (hres : r.report_results = some res) (hb : findBundle res bn = some b)
    (hc : findChecker b cid = some c) :
    r.registerRule bn cid e s d n = (.ok (joinUid e s d n),
      ⟨some (updateBundle res bn (fun b => updateChecker b cid (fun c =>
        { c with addressed_rule :=
            c.addressed_rule ++ [⟨e, s, d, n, joinUid e s d n⟩] }))),
       r.id_manager⟩) := by
  simp only [Result.registerRule, ruleTypeInit_fields_ok he hs hd hn, hres, hb, hc]

/-- C6 (amended).  `register_rule_by_uid` splits the uid on `':'` and fails
(with a runtime error, registering nothing) exactly when there are **fewer
than 4** colon-separated segments; with four *or more* segments the first
four are used (extra segments are silently dropped) and, when they are
pattern-valid and the bundle and checker exist, the rule composed from them
is registered. -/
theorem register_rule_by_uid_segments (r : Result) (bn cid uid : PyStr) :
    ((splitOnChar ':' uid).length < 4 →
      ∃ msg, r.registerRuleByUid bn cid uid = (.error (.runtimeError msg), r)) ∧
    (∀ e s d n rest res b c, splitOnChar ':' uid = e :: s :: d :: n :: rest →
      dottedWordPat e = true → lowerAlphaPat s = true → dottedNumPat d = true →
      ruleNamePat n = true → r.report_results = some res →
      findBundle res bn = some b → findChecker b cid = some c →
      (r.registerRuleByUid bn cid uid).1 = .ok () ∧
      (r.registerRuleByUid bn cid uid).2.id_manager = r.id_manager ∧
      ∃ res' b', (r.registerRuleByUid bn cid uid).2.report_results = some res' ∧
        findBundle res' bn = some b' ∧
        findChecker b' cid = some { c with addressed_rule :=
          c.addressed_rule ++ [⟨e, s, d, n, joinUid e s d n⟩] }) := by
  constructor
  · intro hlen
    exact ⟨_, by rw [Result.registerRuleByUid, if_pos hlen]⟩
  · intro e s d n rest res b c hsplit he hs hd hn hres hb hc
    have hlen : ¬ (splitOnChar ':' uid).length < 4 := by
      rw [hsplit]; simp only [List.length_cons]; omega
    have hrw : r.registerRuleByUid bn cid uid =
        ((r.registerRule bn cid e s d n).1.map (fun _ => ()),
         (r.registerRule bn cid e s d n).2) := by
      rw [Result.registerRuleByUid, if_neg hlen, hsplit]
      rfl
    rw [hrw, registerRule_ok he hs hd hn hres hb hc]
    exact ⟨rfl, rfl, _, _, rfl, findBundle_updateBundle hb rfl,
      findChecker_updateChecker hc rfl⟩

theorem registerIssue_id_manager (r : Result) (bn cid d : PyStr) (l : IssueSeverity)
    (u : PyStr) : (r.registerIssue bn cid d l u).2.id_manager = r.id_manager + 1 := by
  rw [Result.registerIssue]
  split
  · split
    · rfl
    · split
      · rfl
      · split
        · rfl
        · dsimp only
          split <;> rfl
  · rfl

theorem registerIssue_ok_id {r : Result} {bn cid d : PyStr} {l : IssueSeverity}
    {u : PyStr} {n : Int} (h : (r.registerIssue bn cid d l u).1 = .ok n) :
    n = r.id_manager + 1 := by
  rw [Result.registerIssue] at h
  split at h
  · split at h
    · cases h
    · split at h
      · cases h
      · split at h
        · cases h
        · dsimp only at h
          split at h
          · cases h
          · cases h; rfl
  · cases h

theorem runIssues_id_manager (reqs : List IssueReq) (r : Result) :
    (runIssues r reqs).2.id_manager = r.id_manager + reqs.length := by
  induction reqs generalizing r with
  | nil => simp [runIssues]
  | cons q qs ih =>
    rw [runIssues]
    rw [ih]
    rw [registerIssue_id_manager]
    simp only [List.length_cons]
    push_cast
    ring

theorem runIssues_get_ok (reqs : List IssueReq) (r : Result) (i : Nat) (n : Int)
    (h : (runIssues r reqs).1.getD i (.error (.runtimeError [])) = .ok n) :
    n = r.id_manager + 1 + i := by
  induction reqs generalizing r i with
  | nil => cases h
  | cons q qs ih =>
    rw [runIssues] at h
    cases i with
    | zero =>
      have : (r.registerIssue q.bundle q.checker q.description q.level q.rule_uid).1
          = .ok n := h
      rw [registerIssue_ok_id this]
      simp
    | succ j =>
      have hj : (runIssues (r.registerIssue q.bundle q.checker q.description q.level
          q.rule_uid).2 qs).1.getD j (.error (.runtimeError [])) = .ok n := h
      rw [ih _ _ hj, registerIssue_id_manager]
      push_cast
      ring

/-- C2.  On any `Result` instance whose ID manager is fresh (`_id = -1`, as
`Result()` creates it), a sequence of `register_issue` calls allocates the
ids `0, 1, 2, ...` in order — independently of which bundle or checker each
request addresses: the final counter equals the number of calls minus one,
the value returned by a successful i-th call is exactly `i`, and returned
ids are strictly increasing.  The counter is a per-instance field (Python's
`self._id += 1` writes an instance attribute and never the class attribute),
so every independently created `Result` starts at `-1` and satisfies this
theorem with its own private counter; allocations in one instance cannot
affect another. -/

theorem register_issue_ids_start_at_zero (r : Result) (hr : r.id_manager = -1)
    (reqs : List IssueReq) :
    (runIssues r reqs).2.id_manager = (reqs.length : Int) - 1 ∧
    (∀ i n, (runIssues r reqs).1.getD i (.error (.runtimeError [])) = .ok n →
      n = (i : Int)) ∧
    (∀ i j m n, i < j →
      (runIssues r reqs).1.getD i (.error (.runtimeError [])) = .ok m →
      (runIssues r reqs).1.getD j (.error (.runtimeError [])) = .ok n → m < n) := by
  refine ⟨?_, ?_, ?_⟩
  · rw [runIssues_id_manager, hr]; ring
  · intro i n h
    rw [runIssues_get_ok reqs r i n h, hr]
    ring
  · intro i j m n hij hi hj
    rw [runIssues_get_ok reqs r i m hi, runIssues_get_ok reqs r j n hj, hr]
    omega

theorem checkIssue_ok_of_all_addressed (c : CheckerType)
    (hall : ∀ i ∈ c.issues, i.rule_uid ∈ c.addressed_rule.map (·.rule_uid)) :
    checkIssueRuleUIDMatchesAddressedRules c = .ok () := by
  rw [checkIssueRuleUIDMatchesAddressedRules]
  split
  · have hnone : c.issues.find?
        (fun i => decide (i.rule_uid ∉ c.addressed_rule.map (·.rule_uid))) = none := by
      rw [List.find?_eq_none]
      intro i hi
      simp only [decide_eq_true_eq, Decidable.not_not]
      exact hall i hi
    dsimp only
    rw [hnone]
  · rfl

theorem checkerValidate_error_of_unaddressed (c : CheckerType) (issue : IssueType)
    (hmem : issue.rule_uid ∉ c.addressed_rule.map (·.rule_uid)) :
    ∃ msg, checkerValidate { c with issues := c.issues ++ [issue] } =
      .error (.validationError msg) := by
  have hlen : ({ c with issues := c.issues ++ [issue] } : CheckerType).issues.length ≠ 0 := by
    simp
  have hsome : ∃ x, (c.issues ++ [issue]).find?
      (fun i => decide (i.rule_uid ∉ c.addressed_rule.map (·.rule_uid))) = some x := by
    rw [← Option.isSome_iff_exists, List.find?_isSome]
    exact ⟨issue, by simp, by simpa using hmem⟩
  obtain ⟨x, hx⟩ := hsome
  refine ⟨"Issue Rule UID ".toList ++ x.rule_uid ++
    " does not match addressed rules UIDs".toList, ?_⟩
  rw [checkerValidate, checkIssueRuleUIDMatchesAddressedRules, if_pos hlen]
  dsimp only
  rw [hx]
  rfl

theorem checkSkipped_ok_of_not_skipped (c : CheckerType)
    (hst : c.status ≠ some StatusType.skipped) :
    checkSkippedStatusContainingIssues c = .ok () := by
  rw [checkSkippedStatusContainingIssues, if_neg]
  rintro ⟨h1, _⟩
  exact hst h1

theorem checkSkipped_ok_of_no_issues (c : CheckerType) (hi : c.issues = []) :
    checkSkippedStatusContainingIssues c = .ok () := by
  rw [checkSkippedStatusContainingIssues, if_neg]
  rintro ⟨_, h2⟩
  rw [hi] at h2
  exact absurd h2 (by simp)

theorem checkerValidate_error_of_skipped_nonempty (c : CheckerType)
    (hst : c.status = some StatusType.skipped) (hne : c.issues ≠ []) :
    ∃ msg, checkerValidate c = .error (.validationError msg) := by
  rw [checkerValidate, checkIssueRuleUIDMatchesAddressedRules]
  have hlen : c.issues.length ≠ 0 := by simpa using hne
  rw [if_pos hlen]
  dsimp only
  cases hfind : c.issues.find?
      (fun i => decide (i.rule_uid ∉ c.addressed_rule.map (·.rule_uid))) with
  | some i =>
    exact ⟨"Issue Rule UID ".toList ++ i.rule_uid ++
      " does not match addressed rules UIDs".toList, rfl⟩
  | none =>
    refine ⟨c.checker_id ++ " Checkers with skipped status cannot contain issues".toList, ?_⟩
    show checkSkippedStatusContainingIssues c = _
    rw [checkSkippedStatusContainingIssues, if_pos ⟨hst, by omega⟩]

/-- C3.  `register_issue` allocates the next id, appends the issue, then
re-validates the owning checker: when the given `rule_uid` is not among the
checker's addressed rules (in particular when the addressed-rule list is
empty) the call fails with a validation (schema) error, the allocated id is
still consumed (`id_manager` advanced by one), and the next successful
`register_issue` on the resulting instance returns a strictly larger id
(`id_manager + 2`): failed allocations are never reused or rolled back. -/
theorem register_issue_unaddressed_rule_fails_consumes_id
    (r : Result) (res : CheckerResults) (b : CheckerBundleType) (c : CheckerType)
    (bn cid desc : PyStr) (level : IssueSeverity) (rule_uid : PyStr)
    (hres : r.report_results = some res) (hb : findBundle res bn = some b)
    (hc : findChecker b cid = some c)
    (hmem : rule_uid ∉ c.addressed_rule.map (·.rule_uid)) :
    (∃ msg, (r.registerIssue bn cid desc level rule_uid).1 =
      .error (.validationError msg)) ∧
    (r.registerIssue bn cid desc level rule_uid).2.id_manager = r.id_manager + 1 ∧
    (∀ bn2 cid2 d2 l2 u2 n,
      ((r.registerIssue bn cid desc level rule_uid).2.registerIssue
        bn2 cid2 d2 l2 u2).1 = .ok n →
      r.id_manager + 1 < n ∧ n = r.id_manager + 2) := by
  refine ⟨?_, registerIssue_id_manager r bn cid desc level rule_uid, ?_⟩
  · by_cases hpat : ruleUidPat rule_uid = true
    · obtain ⟨msg, hval⟩ := checkerValidate_error_of_unaddressed c
        ⟨[], r.id_manager + 1, desc, level, rule_uid, []⟩ hmem
      refine ⟨msg, ?_⟩
      simp only [Result.registerIssue, hpat, if_true, hres, hb, hc]
      rw [hval]
    · refine ⟨"ruleUID String should match pattern".toList, ?_⟩
      simp [Result.registerIssue, hpat]
  · intro bn2 cid2 d2 l2 u2 n h
    have hn := registerIssue_ok_id h
    rw [registerIssue_id_manager] at hn
    omega

/-- C9.  When `register_issue` fails because re-validation of the owning
checker rejects the new issue, the issue has already been appended and it
remains in the checker's issue list after the error propagates: the failed
call mutates the `Result` state (no rollback of the append), leaving the
checker in a state that fails validation. -/
theorem register_issue_failed_validation_keeps_appended_issue
    (r : Result) (res : CheckerResults) (b : CheckerBundleType) (c : CheckerType)
    (bn cid desc : PyStr) (level : IssueSeverity) (rule_uid : PyStr) (e : Err)
    (hres : r.report_results = some res) (hb : findBundle res bn = some b)
    (hc : findChecker b cid = some c) (hpat : ruleUidPat rule_uid = true)
    (hval : checkerValidate { c with issues := c.issues ++
      [⟨[], r.id_manager + 1, desc, level, rule_uid, []⟩] } = .error e) :
    (r.registerIssue bn cid desc level rule_uid).1 = .error e ∧
    ∃ res' b', (r.registerIssue bn cid desc level rule_uid).2.report_results = some res' ∧
      findBundle res' bn = some b' ∧
      findChecker b' cid = some { c with issues := c.issues ++
        [⟨[], r.id_manager + 1, desc, level, rule_uid, []⟩] } ∧
      checkerValidate { c with issues := c.issues ++
        [⟨[], r.id_manager + 1, desc, level, rule_uid, []⟩] } = .error e := by
  have hrw : r.registerIssue bn cid desc level rule_uid = (.error e,
      ⟨some (updateBundle res bn (fun b => updateChecker b cid (fun _ =>
        { c with issues := c.issues ++
          [⟨[], r.id_manager + 1, desc, level, rule_uid, []⟩] }))),
       r.id_manager + 1⟩) := by
    simp only [Result.registerIssue, hpat, if_true, hres, hb, hc]
    rw [hval]
  rw [hrw]
  exact ⟨rfl, _, _, rfl, findBundle_updateBundle hb rfl,
    findChecker_updateChecker hc rfl, hval⟩

/-- C4.  `set_checker_status(bundle, checker, SKIPPED)` fails (with a
validation error) whenever the checker already has at least one issue — the
assignment having been committed first, the checker is left with the SKIPPED
status (pydantic commits the new value before the after-validators raise; no
rollback) — and succeeds, leaving the checker's status set to SKIPPED,
whenever it has zero issues; setting any other status value never triggers
the skipped-with-issues failure (for a checker satisfying the rule-uid
invariant it plainly succeeds). -/
theorem set_checker_status_skipped_vs_issues
    (r : Result) (res : CheckerResults) (b : CheckerBundleType) (c : CheckerType)
    (bn cid : PyStr)
    (hres : r.report_results = some res) (hb : findBundle res bn = some b)
    (hc : findChecker b cid = some c) :
    (c.issues ≠ [] →
      ∃ msg, (r.setCheckerStatus bn cid .skipped).1 = .error (.validationError msg) ∧
        ∃ res' b', (r.setCheckerStatus bn cid .skipped).2.report_results = some res' ∧
          findBundle res' bn = some b' ∧
          findChecker b' cid = some { c with status := some StatusType.skipped }) ∧
    (c.issues = [] →
      (r.setCheckerStatus bn cid .skipped).1 = .ok () ∧
      ∃ res' b', (r.setCheckerStatus bn cid .skipped).2.report_results = some res' ∧
        findBundle res' bn = some b' ∧
        findChecker b' cid = some { c with status := some StatusType.skipped }) ∧
    (∀ st : StatusType, st ≠ .skipped →
      (∀ i ∈ c.issues, i.rule_uid ∈ c.addressed_rule.map (·.rule_uid)) →
      (r.setCheckerStatus bn cid st).1 = .ok () ∧
      ∃ res' b', (r.setCheckerStatus bn cid st).2.report_results = some res' ∧
        findBundle res' bn = some b' ∧
        findChecker b' cid = some { c with status := some st }) := by
  refine ⟨?_, ?_, ?_⟩
  · intro hne
    obtain ⟨msg, hval⟩ := checkerValidate_error_of_skipped_nonempty
      { c with status := some .skipped } rfl (by simpa using hne)
    have hrw : r.setCheckerStatus bn cid .skipped = (.error (.validationError msg),
        ⟨some (updateBundle res bn (fun b => updateChecker b cid (fun _ =>
          { c with status := some StatusType.skipped }))), r.id_manager⟩) := by
      simp only [Result.setCheckerStatus, hres, hb, hc]
      rw [hval]
    rw [hrw]
    exact ⟨msg, rfl, _, _, rfl, findBundle_updateBundle hb rfl,
      findChecker_updateChecker hc rfl⟩
  · intro hi
    have hval : checkerValidate { c with status := some StatusType.skipped } = .ok () := by
      rw [checkerValidate]
      rw [show checkIssueRuleUIDMatchesAddressedRules { c with status := some StatusType.skipped }
          = .ok () from checkIssue_ok_of_all_addressed _ (by rw [hi]; intro i h; cases h)]
      exact checkSkipped_ok_of_no_issues _ hi
    have hrw : r.setCheckerStatus bn cid .skipped = (.ok (),
        ⟨some (updateBundle res bn (fun b => updateChecker b cid (fun _ =>
          { c with status := some StatusType.skipped }))), r.id_manager⟩) := by
      simp only [Result.setCheckerStatus, hres, hb, hc]
      rw [hval]
    rw [hrw]
    exact ⟨rfl, _, _, rfl, findBundle_updateBundle hb rfl,
      findChecker_updateChecker hc rfl⟩
  · intro st hst hall
    have hval : checkerValidate { c with status := some st } = .ok () := by
      rw [checkerValidate]
      rw [show checkIssueRuleUIDMatchesAddressedRules { c with status := some st }
          = .ok () from checkIssue_ok_of_all_addressed _ hall]
      refine checkSkipped_ok_of_not_skipped _ ?_
      simpa using hst
    have hrw : r.setCheckerStatus bn cid st = (.ok (),
        ⟨some (updateBundle res bn (fun b => updateChecker b cid (fun _ =>
          { c with status := some st }))), r.id_manager⟩) := by
      simp only [Result.setCheckerStatus, hres, hb, hc]
      rw [hval]
    rw [hrw]
    exact ⟨rfl, _, _, rfl, findBundle_updateBundle hb rfl,
      findChecker_updateChecker hc rfl⟩

/-- C5 counterexample: `Configuration.register_checker_bundle` performs **no**
duplicate-name check — registering "B" a second time succeeds and appends a
second bundle named "B", mutating the store. -/
theorem config_register_duplicate_bundle_succeeds :
    (cfgWithB.registerCheckerBundle "B".toList).configuration =
      some ⟨[], [], [⟨[], [], "B".toList⟩, ⟨[], [], "B".toList⟩]⟩ ∧
    cfgWithB.registerCheckerBundle "B".toList ≠ cfgWithB := by
  exact ⟨rfl, by decide⟩

/-- C5 (amended).  In the **Result** store, registering a second checker
bundle, checker, or bundle/checker param under a name/id that already exists
at that scope always fails with a runtime error and leaves the store
unchanged.  The **Configuration** store's `register_checker_bundle`, by
contrast, performs no duplicate check (see the counterexample): the
no-duplicates guarantee holds for the Result registration APIs only. -/
theorem duplicate_registration_result_store_fails_unchanged
    (r : Result) (res : CheckerResults) (hres : r.report_results = some res) :
    (∀ desc name ver bd sum, (∃ b ∈ res.checker_bundles, b.name = name) →
      ∃ msg, r.registerCheckerBundle desc name ver bd sum =
        (.error (.runtimeError msg), r)) ∧
    (∀ bn b cid desc sum, findBundle res bn = some b →
      (∃ c ∈ b.checkers, c.checker_id = cid) →
      ∃ msg, r.registerChecker bn cid desc sum = (.error (.runtimeError msg), r)) ∧
    (∀ bn b pname v, findBundle res bn = some b →
      (∃ p ∈ b.params, p.name = pname) →
      ∃ msg, r.addParamToCheckerBundle bn pname v = (.error (.runtimeError msg), r)) ∧
    (∀ bn b cid c pname v, findBundle res bn = some b → findChecker b cid = some c →
      (∃ p ∈ c.params, p.name = pname) →
      ∃ msg, r.addParamToChecker bn cid pname v = (.error (.runtimeError msg), r)) := by
  refine ⟨?_, ?_, ?_, ?_⟩
  · intro desc name ver bd sum ⟨b, hbmem, hbname⟩
    have hdup : res.checker_bundles.any (fun b => decide (b.name = name)) = true := by
      rw [List.any_eq_true]
      exact ⟨b, hbmem, by simp [hbname]⟩
    refine ⟨"Checker bundle with name ".toList ++ name ++
      " is already registered to results".toList, ?_⟩
    simp only [Result.registerCheckerBundle, hres, hdup, if_true]
    rw [← hres]
  · intro bn b cid desc sum hb ⟨c, hcmem, hcid⟩
    have hdup : b.checkers.any (fun c => decide (c.checker_id = cid)) = true := by
      rw [List.any_eq_true]
      exact ⟨c, hcmem, by simp [hcid]⟩
    refine ⟨"Checker with id ".toList ++ cid ++
      " is already registered to bundle ".toList ++ b.name, ?_⟩
    simp only [Result.registerChecker, hres, hb, hdup, if_true]
  · intro bn b pname v hb ⟨p, hpmem, hpname⟩
    have hdup : b.params.any (fun p => decide (p.name = pname)) = true := by
      rw [List.any_eq_true]
      exact ⟨p, hpmem, by simp [hpname]⟩
    refine ⟨"Param with name ".toList ++ pname ++
      " is already registered to bundle ".toList ++ bn, ?_⟩
    simp only [Result.addParamToCheckerBundle, hres, hb, hdup, if_true]
  · intro bn b cid c pname v hb hc ⟨p, hpmem, hpname⟩
    have hdup : c.params.any (fun p => decide (p.name = pname)) = true := by
      rw [List.any_eq_true]
      exact ⟨p, hpmem, by simp [hpname]⟩
    refine ⟨"Param with name ".toList ++ pname ++
      " is already registered to checker ".toList ++ cid, ?_⟩
    simp only [Result.addParamToChecker, hres, hb, hc, hdup, if_true]

/-- C10.  `add_xml_location` with an empty list of xpaths always fails: when
the target bundle, checker and issue exist, the `LocationType` built from
zero entries is rejected by its at-least-one-element validator, the call
raises the validation error, and the store is left entirely unchanged (no
location is appended to the issue). -/
theorem add_xml_location_empty_xpaths_fails
    (r : Result) (res : CheckerResults) (b : CheckerBundleType) (c : CheckerType)
    (i : IssueType) (bn cid : PyStr) (iid : Int) (desc : PyStr)
    (hres : r.report_results = some res) (hb : findBundle res bn = some b)
    (hc : findChecker b cid = some c) (hi : findIssue c iid = some i) :
    ∃ msg, r.addXmlLocation bn cid iid [] desc = (.error (.validationError msg), r) := by
  refine ⟨"LocationType require at least one element of type XMLLocationType / FileLocationType / RoadLocationType".toList, ?_⟩
  simp only [Result.addXmlLocation, hres, hb, hc, hi, List.map_nil]
  rw [show mkLocationType [] [] [] desc = .error (.validationError
    "LocationType require at least one element of type XMLLocationType / FileLocationType / RoadLocationType".toList)
    from rfl]

theorem parseBundlesXml_ok_length {l : List (PyStr × List BundleXmlChild)}
    {bs : List ConfigCheckerBundleType} (h : parseBundlesXml l = .ok bs) :
    bs.length = l.length := by
  induction l generalizing bs with
  | nil => cases h; rfl
  | cons x xs ih =>
    obtain ⟨a, cs⟩ := x
    rw [parseBundlesXml] at h
    cases hb : parseBundleXml a cs with
    | error e => rw [hb] at h; cases h
    | ok b =>
      rw [hb] at h
      cases hbs : parseBundlesXml xs with
      | error e =>
        rw [hbs] at h
        cases h
      | ok bs' =>
        rw [hbs] at h
        cases h
        simp [ih hbs]

theorem parseConfigXml_ok_inv {l : List ConfigXmlChild} {c : Config}
    (h : parseConfigXml l = .ok c) :
    c.params = l.filterMap configChildParam ∧
    c.reports = l.filterMap configChildReport ∧
    ∃ bs, parseBundlesXml (l.filterMap configChildBundle) = .ok bs ∧
      c.checker_bundles = bs := by
  rw [parseConfigXml] at h
  cases hbs : parseBundlesXml (l.filterMap configChildBundle) with
  | error e => rw [hbs] at h; cases h
  | ok bs =>
    rw [hbs] at h
    simp only [bind, Except.bind] at h
    split at h
    · cases h
    · cases h
      exact ⟨rfl, rfl, bs, rfl, rfl⟩

theorem parseBundleXml_ok_inv {a : PyStr} {l : List BundleXmlChild}
    {b : ConfigCheckerBundleType} (h : parseBundleXml a l = .ok b) :
    b.params = l.filterMap bundleChildParam ∧
    b.checkers = l.filterMap bundleChildChecker := by
  rw [parseBundleXml] at h
  split at h
  · cases h
  · cases h
    exact ⟨rfl, rfl⟩

/-- C8.  Parsing a Config document is order-independent: two documents whose
children (Param, ReportModule, CheckerBundle at the root; Param, Checker
inside a bundle) are the same elements in different relative orders parse to
models with identical counts of params, report modules and checker
bundles (resp. params and checkers). -/
theorem config_parse_order_independent :
    (∀ (l1 l2 : List ConfigXmlChild) (c1 c2 : Config), l1.Perm l2 →
      parseConfigXml l1 = .ok c1 → parseConfigXml l2 = .ok c2 →
      c1.params.length = c2.params.length ∧
      c1.reports.length = c2.reports.length ∧
      c1.checker_bundles.length = c2.checker_bundles.length) ∧
    (∀ (a1 a2 : PyStr) (l1 l2 : List BundleXmlChild)
      (b1 b2 : ConfigCheckerBundleType), l1.Perm l2 →
      parseBundleXml a1 l1 = .ok b1 → parseBundleXml a2 l2 = .ok b2 →
      b1.params.length = b2.params.length ∧
      b1.checkers.length = b2.checkers.length) := by
  constructor
  · intro l1 l2 c1 c2 hperm h1 h2
    obtain ⟨hp1, hr1, bs1, hbs1, hcb1⟩ := parseConfigXml_ok_inv h1
    obtain ⟨hp2, hr2, bs2, hbs2, hcb2⟩ := parseConfigXml_ok_inv h2
    refine ⟨?_, ?_, ?_⟩
    · rw [hp1, hp2]
      exact (hperm.filterMap configChildParam).length_eq
    · rw [hr1, hr2]
      exact (hperm.filterMap configChildReport).length_eq
    · rw [hcb1, hcb2, parseBundlesXml_ok_length hbs1, parseBundlesXml_ok_length hbs2]
      exact (hperm.filterMap configChildBundle).length_eq
  · intro a1 a2 l1 l2 b1 b2 hperm h1 h2
    obtain ⟨hp1, hc1⟩ := parseBundleXml_ok_inv h1
    obtain ⟨hp2, hc2⟩ := parseBundleXml_ok_inv h2
    constructor
    · rw [hp1, hp2]
      exact (hperm.filterMap bundleChildParam).length_eq
    · rw [hc1, hc2]
      exact (hperm.filterMap bundleChildChecker).length_eq

theorem map_if_no_key {α β : Type} [DecidableEq β] (key : α → β) (k : β)
    (f : α → α) (l : List α) (h : ∀ a ∈ l, key a ≠ k) :
    l.map (fun a => if key a = k then f a else a) = l := by
  have hcongr : l.map (fun a => if key a = k then f a else a) = l.map id :=
    List.map_congr_left (fun a ha => by rw [if_neg (h a ha)]; rfl)
  rw [hcongr, List.map_id]

theorem updateFirst_key_eq_map {α β : Type} [DecidableEq β] (key : α → β) (k : β)
    (f : α → α) (l : List α) (hnd : (l.map key).Nodup) :
    updateFirst (fun a => decide (key a = k)) f l =
      l.map (fun a => if key a = k then f a else a) := by
  induction l with
  | nil => rfl
  | cons x xs ih =>
    simp only [List.map_cons, List.nodup_cons] at hnd
    by_cases hx : key x = k
    · rw [updateFirst, if_pos (by simp [hx]), List.map_cons, if_pos hx]
      rw [map_if_no_key key k f xs]
      intro a ha hak
      have hmem : key a ∈ List.map key xs := List.mem_map_of_mem key ha
      rw [hak, ← hx] at hmem
      exact hnd.1 hmem
    · rw [updateFirst, if_neg (by simp [hx]), List.map_cons, if_neg hx, ih hnd.2]

theorem mergeCheckerList_eq_map (ccs : List ConfigCheckerType) (cs : List CheckerType)
    (hnd : (cs.map (·.checker_id)).Nodup) :
    mergeCheckerList cs ccs = cs.map (fun c => { c with params := c.params ++
      ((ccs.filter (fun cc => decide (cc.checker_id = c.checker_id))).map
        (·.params)).flatten }) := by
  induction ccs generalizing cs with
  | nil =>
    have hcongr : cs.map (fun c => ({ c with params := c.params ++
        ((([] : List ConfigCheckerType).filter
          (fun cc => decide (cc.checker_id = c.checker_id))).map
            (·.params)).flatten } : CheckerType)) = cs.map id :=
      List.map_congr_left (fun c _ => by simp)
    rw [hcongr, List.map_id]
    rfl
  | cons cc rest ih =>
    have hstep : mergeCheckerList cs (cc :: rest) = mergeCheckerList
        (match cs.find? (fun c => decide (c.checker_id = cc.checker_id)) with
         | none => cs
         | some _ => updateFirst (fun c => decide (c.checker_id = cc.checker_id))
             (fun c => { c with params := c.params ++ cc.params }) cs) rest := by
      rfl
    rw [hstep]
    cases hfind : cs.find? (fun c => decide (c.checker_id = cc.checker_id)) with
    | none =>
      rw [ih cs hnd]
      apply List.map_congr_left
      intro c hc
      have hne : ¬ cc.checker_id = c.checker_id := by
        have := List.find?_eq_none.mp hfind c hc
        simp only [decide_eq_true_eq] at this
        exact fun h => this h.symm
      rw [List.filter_cons_of_neg (by simpa using hne)]
    | some c0 =>
      rw [updateFirst_key_eq_map (·.checker_id) cc.checker_id
        (fun c => { c with params := c.params ++ cc.params }) cs hnd]
      have hnd2 : ((cs.map (fun c => if c.checker_id = cc.checker_id then
          { c with params := c.params ++ cc.params } else c)).map (·.checker_id)).Nodup := by
        rw [List.map_map]
        have hcomp : ((·.checker_id) ∘ (fun c => if c.checker_id = cc.checker_id then
            { c with params := c.params ++ cc.params } else c)) =
            fun (c : CheckerType) => c.checker_id := by
          funext c
          by_cases h : c.checker_id = cc.checker_id <;> simp [h, Function.comp]
        rw [hcomp]
        exact hnd
      rw [ih _ hnd2, List.map_map]
      apply List.map_congr_left
      intro c hc
      by_cases h : c.checker_id = cc.checker_id
      · simp only [Function.comp, if_pos h]
        rw [List.filter_cons_of_pos (by simpa using h.symm)]
        simp [List.append_assoc]
      · simp only [Function.comp, if_neg h]
        rw [List.filter_cons_of_neg (by simp only [decide_eq_true_eq]; exact fun hh => h hh.symm)]

theorem mergeBundleStep_name (b : CheckerBundleType) (cb : ConfigCheckerBundleType) :
    (mergeBundleStep b cb).name = b.name := rfl

theorem applyCfgBundle_eq_map (res : CheckerResults) (cb : ConfigCheckerBundleType)
    (hnd : (res.checker_bundles.map (·.name)).Nodup) :
    applyCfgBundle res cb = { res with checker_bundles := res.checker_bundles.map (fun b =>
      if b.name = cb.application then mergeBundleStep b cb else b) } := by
  rw [applyCfgBundle]
  cases hfind : findBundle res cb.application with
  | none =>
    have hnone : ∀ b ∈ res.checker_bundles, b.name ≠ cb.application := by
      intro b hb
      have := List.find?_eq_none.mp hfind b hb
      simpa using this
    have hmap : res.checker_bundles.map (fun b =>
        if b.name = cb.application then mergeBundleStep b cb else b) =
        res.checker_bundles :=
      map_if_no_key (·.name) cb.application (fun b => mergeBundleStep b cb)
        res.checker_bundles hnone
    rw [hmap]
  | some b0 =>
    rw [updateBundle,
      updateFirst_key_eq_map (·.name) cb.application (fun b => mergeBundleStep b cb)
        res.checker_bundles hnd]

theorem names_map_merge (cbs : List CheckerBundleType) (cb : ConfigCheckerBundleType) :
    ((cbs.map (fun b => if b.name = cb.application then mergeBundleStep b cb else b)).map
      (·.name)) = cbs.map (·.name) := by
  rw [List.map_map]
  apply List.map_congr_left
  intro b _
  by_cases h : b.name = cb.application <;> simp [h, Function.comp, mergeBundleStep_name]

theorem foldl_applyCfgBundle_eq_map (cbs : List ConfigCheckerBundleType)
    (res : CheckerResults) (hnd : (res.checker_bundles.map (·.name)).Nodup) :
    cbs.foldl applyCfgBundle res = { res with checker_bundles := res.checker_bundles.map (fun b =>
      cbs.foldl (fun b cb => if b.name = cb.application then mergeBundleStep b cb else b) b) } := by
  induction cbs generalizing res with
  | nil =>
    rw [List.foldl_nil]
    have hcongr : res.checker_bundles.map (fun b => List.foldl
        (fun b cb => if b.name = cb.application then mergeBundleStep b cb else b) b []) =
        res.checker_bundles.map id :=
      List.map_congr_left (fun b _ => rfl)
    rw [hcongr, List.map_id]
  | cons cb rest ih =>
    rw [List.foldl_cons, applyCfgBundle_eq_map res cb hnd]
    have hnd2 : (((res.checker_bundles.map (fun b =>
        if b.name = cb.application then mergeBundleStep b cb else b))).map (·.name)).Nodup := by
      rw [names_map_merge]
      exact hnd
    rw [ih _ hnd2]
    dsimp only
    rw [List.map_map]
    apply congrArg (fun l => ({ res with checker_bundles := l } : CheckerResults))
    apply List.map_congr_left
    intro b _
    rfl

theorem foldl_merge_eq_filter (cbs : List ConfigCheckerBundleType)
    (b : CheckerBundleType) :
    cbs.foldl (fun b cb => if b.name = cb.application then mergeBundleStep b cb else b) b =
      (cbs.filter (fun cb => decide (b.name = cb.application))).foldl mergeBundleStep b := by
  induction cbs generalizing b with
  | nil => rfl
  | cons cb rest ih =>
    rw [List.foldl_cons]
    by_cases h : b.name = cb.application
    · rw [if_pos h, List.filter_cons_of_pos (by simpa using h), List.foldl_cons, ih]
      have hname : (mergeBundleStep b cb).name = b.name := rfl
      rw [hname]
    · rw [if_neg h, List.filter_cons_of_neg (by simpa using h), ih]

theorem checkerIds_map_params (cs : List CheckerType) (g : CheckerType → List ParamType) :
    ((cs.map (fun c => { c with params := g c })).map (·.checker_id)) =
      cs.map (·.checker_id) := by
  rw [List.map_map]
  apply List.map_congr_left
  intro c _
  rfl

theorem foldl_mergeBundleStep (matching : List ConfigCheckerBundleType)
    (b : CheckerBundleType) (hnd : (b.checkers.map (·.checker_id)).Nodup) :
    matching.foldl mergeBundleStep b = { b with
      params := b.params ++ (matching.map (·.params)).flatten,
      checkers := b.checkers.map (fun c => { c with params := c.params ++
        (matching.map (fun cb => ((cb.checkers.filter (fun cc =>
          decide (cc.checker_id = c.checker_id))).map (·.params)).flatten)).flatten }) } := by
  induction matching generalizing b with
  | nil =>
    rw [List.foldl_nil]
    have hp : b.params ++ (([] : List ConfigCheckerBundleType).map (·.params)).flatten
        = b.params := by simp
    have hc : b.checkers.map (fun c => ({ c with params := c.params ++
        (([] : List ConfigCheckerBundleType).map (fun cb => ((cb.checkers.filter (fun cc =>
          decide (cc.checker_id = c.checker_id))).map (·.params)).flatten)).flatten } :
            CheckerType)) = b.checkers.map id :=
      List.map_congr_left (fun c _ => by simp)
    rw [hp, hc, List.map_id]
  | cons cb rest ih =>
    rw [List.foldl_cons]
    have hb1 : mergeBundleStep b cb = { b with
        params := b.params ++ cb.params,
        checkers := b.checkers.map (fun c => { c with params := c.params ++
          ((cb.checkers.filter (fun cc => decide (cc.checker_id = c.checker_id))).map
            (·.params)).flatten }) } := by
      rw [mergeBundleStep, mergeCheckerList_eq_map cb.checkers b.checkers hnd]
    rw [hb1]
    have hnd1 : (((b.checkers.map (fun c => ({ c with params := c.params ++
        ((cb.checkers.filter (fun cc => decide (cc.checker_id = c.checker_id))).map
          (·.params)).flatten } : CheckerType))).map (·.checker_id))).Nodup := by
      rw [checkerIds_map_params]
      exact hnd
    rw [ih _ hnd1]
    have hp : (b.params ++ cb.params) ++ (rest.map (·.params)).flatten =
        b.params ++ ((cb :: rest).map (·.params)).flatten := by
      simp [List.append_assoc]
    have hc : (b.checkers.map (fun c => ({ c with params := c.params ++
        ((cb.checkers.filter (fun cc => decide (cc.checker_id = c.checker_id))).map
          (·.params)).flatten } : CheckerType))).map (fun c => ({ c with params := c.params ++
        (rest.map (fun cb => ((cb.checkers.filter (fun cc =>
          decide (cc.checker_id = c.checker_id))).map (·.params)).flatten)).flatten } :
            CheckerType)) =
        b.checkers.map (fun c => { c with params := c.params ++
          ((cb :: rest).map (fun cb => ((cb.checkers.filter (fun cc =>
            decide (cc.checker_id = c.checker_id))).map (·.params)).flatten)).flatten }) := by
      rw [List.map_map]
      apply List.map_congr_left
      intro c _
      simp [Function.comp, List.append_assoc]
    rw [hp, hc]

/-- Counterexample config for C7: two global params sharing the name "p". -/
def dupGlobalCfg : Configuration :=
  ⟨some ⟨[⟨"p".toList, .str "v1".toList⟩, ⟨"p".toList, .str "v2".toList⟩], [], []⟩⟩

/-- C7 counterexample.  (1) With two global params both named "p",
`copy_param_from_config` appends only **one** param (name-keyed dict
collapse, last value wins) to the result bundle instead of both; (2) with an
uninitialized `Configuration` the call raises instead of succeeding. -/
theorem copy_param_from_config_counterexample :
    ((wResult0.copyParamFromConfig dupGlobalCfg).1 = .ok () ∧
     ∃ res b, (wResult0.copyParamFromConfig dupGlobalCfg).2.report_results = some res ∧
       findBundle res wBundleName = some b ∧
       b.params = [⟨"p".toList, .str "v2".toList⟩] ∧
       b.params.length = 1 ∧
       (dupGlobalCfg.configuration.map (·.params.length)) = some 2) ∧
    (∃ msg, wResult0.copyParamFromConfig ⟨none⟩ =
      (.error (.runtimeError msg), wResult0)) := by
  refine ⟨⟨rfl, ?_⟩, ?_⟩
  · exact ⟨_, _, rfl, rfl, rfl, rfl, rfl⟩
  · exact ⟨_, rfl⟩

/-- C7 (amended).  Given an initialized `Result` and an initialized
`Configuration` (and well-formed stores: bundle names unique, checker ids
unique per bundle, as the registration API guarantees),
`copy_param_from_config` succeeds and performs exactly this merge: (a) one
param per **distinct** global param name — carrying the value most recently
set for that name — is appended to every result bundle (duplicate-named
globals collapse through the name-keyed dict); (b) for each configuration
bundle whose application name matches a result bundle, its params are
appended to that bundle; (c) for each of its checkers whose id matches a
checker of that bundle, its params are appended to that checker;
configuration bundles and checkers with no counterpart are skipped silently,
never causing an error. -/
theorem copy_param_from_config_merge (r : Result) (res : CheckerResults)
    (config : Configuration) (cfg : Config)
    (hres : r.report_results = some res) (hcfg : config.configuration = some cfg)
    (hnames : (res.checker_bundles.map (·.name)).Nodup)
    (hcids : ∀ b ∈ res.checker_bundles, (b.checkers.map (·.checker_id)).Nodup) :
    r.copyParamFromConfig config = (.ok (),
      ⟨some { res with checker_bundles := res.checker_bundles.map (specMergedBundle cfg) },
       r.id_manager⟩) := by
  have hres1nd : ((res.checker_bundles.map (fun b => ({ b with params := b.params ++ (getAllGlobalConfigParam cfg).map (fun g => ⟨g.1, g.2⟩) } : CheckerBundleType))).map (·.name)).Nodup := by
    rw [List.map_map]
    have hcomp : ((·.name) ∘ (fun b => ({ b with params := b.params ++ (getAllGlobalConfigParam cfg).map (fun g => ⟨g.1, g.2⟩) } : CheckerBundleType))) = fun (b : CheckerBundleType) => b.name := by
      funext b
      rfl
    rw [hcomp]
    exact hnames
  simp only [Result.copyParamFromConfig, hcfg, hres]
  rw [foldl_applyCfgBundle_eq_map cfg.checker_bundles _ hres1nd]
  rw [List.map_map]
  have hmap : ∀ b ∈ res.checker_bundles,
      ((fun b => cfg.checker_bundles.foldl (fun b cb => if b.name = cb.application then mergeBundleStep b cb else b) b) ∘ (fun b => ({ b with params := b.params ++ (getAllGlobalConfigParam cfg).map (fun g => ⟨g.1, g.2⟩) } : CheckerBundleType))) b = specMergedBundle cfg b := by
    intro b hb
    show cfg.checker_bundles.foldl (fun b cb => if b.name = cb.application then mergeBundleStep b cb else b) ({ b with params := b.params ++ (getAllGlobalConfigParam cfg).map (fun g => ⟨g.1, g.2⟩) }) = _
    rw [foldl_merge_eq_filter]
    rw [foldl_mergeBundleStep _ _ (by exact hcids b hb)]
    rw [specMergedBundle]
    simp only [List.append_assoc]
    rfl
  rw [List.map_congr_left hmap]

/-- C1 witness at the spec's concrete scenario. -/
theorem rule_uid_compose_decompose_roundtrip_witness :
    composeRule "test.com".toList "qc".toList "1.0.0".toList "qwerty.qwerty".toList =
      .ok wUid ∧
    decomposeRule wUid = .ok ("test.com".toList, "qc".toList, "1.0.0".toList,
      "qwerty.qwerty".toList) :=
  rule_uid_compose_decompose_roundtrip "test.com".toList "qc".toList "1.0.0".toList
    "qwerty.qwerty".toList (by decide) (by decide) (by decide) (by decide)

/-- C2 witness: two issue registrations on a fresh instance return ids 0, 1. -/
theorem register_issue_ids_start_at_zero_witness :
    (runIssues wResult2 [wReq, wReq]).2.id_manager = (([wReq, wReq].length : Int)) - 1 ∧
    (0 : Int) = ((0 : Nat) : Int) ∧ (1 : Int) = ((1 : Nat) : Int) := by
  have h := register_issue_ids_start_at_zero wResult2 rfl [wReq, wReq]
  exact ⟨h.1, h.2.1 0 0 rfl, h.2.1 1 1 rfl⟩

/-- C3 witness: registering an issue against a checker with an empty
addressed-rule list fails with a validation error and consumes the id. -/
theorem register_issue_unaddressed_rule_fails_consumes_id_witness :
    (∃ msg, (wResult1.registerIssue wBundleName wCheckerId
      "Issue found at odr".toList .information wUid).1 =
        .error (.validationError msg)) ∧
    (wResult1.registerIssue wBundleName wCheckerId "Issue found at odr".toList
      .information wUid).2.id_manager = wResult1.id_manager + 1 := by
  have h := register_issue_unaddressed_rule_fails_consumes_id wResult1 wRes1 wB1 wC1
    wBundleName wCheckerId "Issue found at odr".toList .information wUid
    rfl rfl rfl (by decide)
  exact ⟨h.1, h.2.1⟩

/-- C4 witness: SKIPPED fails on the one-issue checker (which keeps the
committed SKIPPED status), succeeds on the zero-issue checker; COMPLETED
succeeds on the zero-issue checker. -/
theorem set_checker_status_skipped_vs_issues_witness :
    (∃ msg, (wResult3.setCheckerStatus wBundleName wCheckerId .skipped).1 =
      .error (.validationError msg)) ∧
    (wResult2.setCheckerStatus wBundleName wCheckerId .skipped).1 = .ok () ∧
    (wResult2.setCheckerStatus wBundleName wCheckerId .completed).1 = .ok () := by
  have h3 := set_checker_status_skipped_vs_issues wResult3 wRes3 wB3 wC3c
    wBundleName wCheckerId rfl rfl rfl
  have h2 := set_checker_status_skipped_vs_issues wResult2 wRes2 wB2 wC2c
    wBundleName wCheckerId rfl rfl rfl
  have hne : wC3c.issues ≠ [] := by
    intro h
    have h0 : wC3c.issues.length = 0 := by rw [h]; rfl
    exact absurd h0 (by decide)
  have hempty : wC2c.issues = [] := rfl
  have hall : ∀ i ∈ wC2c.issues, i.rule_uid ∈ wC2c.addressed_rule.map (·.rule_uid) := by
    rw [hempty]
    intro i h
    cases h
  obtain ⟨msg, hmsg, _⟩ := h3.1 hne
  exact ⟨⟨msg, hmsg⟩, (h2.2.1 hempty).1, (h2.2.2 .completed (by decide) hall).1⟩

/-- C5 witness: a duplicate bundle registration on the Result store fails
and leaves the store unchanged. -/
theorem duplicate_registration_result_store_fails_unchanged_witness :
    ∃ msg, wResult1.registerCheckerBundle "d".toList wBundleName "v".toList
      "bd".toList "s".toList = (.error (.runtimeError msg), wResult1) := by
  have h := (duplicate_registration_result_store_fails_unchanged wResult1 wRes1 rfl).1
    "d".toList wBundleName "v".toList "bd".toList "s".toList
  refine h ⟨wB1, ?_, rfl⟩
  rw [show wRes1.checker_bundles = [wB1] from rfl]
  exact List.mem_cons_self _ _

/-- C6 witness: a 3-segment uid fails with a runtime error; a valid
4-segment uid registers. -/
theorem register_rule_by_uid_segments_witness :
    (∃ msg, wResult1.registerRuleByUid wBundleName wCheckerId
      "test.com:qc:1.0.0".toList = (.error (.runtimeError msg), wResult1)) ∧
    (wResult1.registerRuleByUid wBundleName wCheckerId wUid).1 = .ok () := by
  refine ⟨(register_rule_by_uid_segments wResult1 wBundleName wCheckerId
    "test.com:qc:1.0.0".toList).1 (by decide), ?_⟩
  have h := (register_rule_by_uid_segments wResult1 wBundleName wCheckerId wUid).2
    "test.com".toList "qc".toList "1.0.0".toList "qwerty.qwerty".toList []
    wRes1 wB1 wC1 (by decide) (by decide) (by decide) (by decide) (by decide)
    rfl rfl rfl
  exact h.1

/-- C7 witness: the merge on the witness stores. -/
theorem copy_param_from_config_merge_witness :
    wResult1.copyParamFromConfig wCfg = (.ok (),
      ⟨some { wRes1 with checker_bundles :=
        wRes1.checker_bundles.map (specMergedBundle wCfgObj) }, wResult1.id_manager⟩) :=
  copy_param_from_config_merge wResult1 wRes1 wCfg wCfgObj rfl rfl
    (by decide) (by decide)

/-- C8 witness: the same children in two orders parse to equal counts. -/
theorem config_parse_order_independent_witness :
    parseConfigXml orderedConfigChildren = .ok wParsedOrdered ∧
    parseConfigXml unorderedConfigChildren = .ok wParsedUnordered ∧
    wParsedOrdered.params.length = wParsedUnordered.params.length ∧
    wParsedOrdered.reports.length = wParsedUnordered.reports.length ∧
    wParsedOrdered.checker_bundles.length = wParsedUnordered.checker_bundles.length := by
  have h := config_parse_order_independent.1 orderedConfigChildren
    unorderedConfigChildren wParsedOrdered wParsedUnordered (by decide) rfl rfl
  exact ⟨rfl, rfl, h.1, h.2.1, h.2.2⟩

/-- C9 witness: the failed registration leaves issue 0 appended. -/
theorem register_issue_failed_validation_keeps_appended_issue_witness :
    (wResult1.registerIssue wBundleName wCheckerId "Issue found at odr".toList
      .information wUid).1 = .error wC9err ∧
    ∃ res' b', (wResult1.registerIssue wBundleName wCheckerId
      "Issue found at odr".toList .information wUid).2.report_results = some res' ∧
      findBundle res' wBundleName = some b' ∧
      findChecker b' wCheckerId = some wC9checker := by
  have h := register_issue_failed_validation_keeps_appended_issue wResult1 wRes1 wB1
    wC1 wBundleName wCheckerId "Issue found at odr".toList .information wUid wC9err
    rfl rfl rfl (by decide) rfl
  obtain ⟨h1, res', b', h2, h3, h4, _⟩ := h
  exact ⟨h1, res', b', h2, h3, h4⟩

/-- C10 witness: empty xpath list on the registered issue fails, state
unchanged. -/
theorem add_xml_location_empty_xpaths_fails_witness :
    ∃ msg, wResult3.addXmlLocation wBundleName wCheckerId 0 [] "desc".toList =
      (.error (.validationError msg), wResult3) :=
  add_xml_location_empty_xpaths_fails wResult3 wRes3 wB3 wC3c wIss3 wBundleName
    wCheckerId 0 "desc".toList rfl rfl rfl rfl
